import Mathlib

/-!
# CARLsim group monitor core

A shallow embedding of `carlsim/group_monitor/group_monitor_core.cpp`: the
recorder object `GroupMonitorCore`, its recording sessions and the header it
writes to the group file.

Conventions of the embedding.

* A method `void GroupMonitorCore::m(args)` becomes a function
  `m : args → GroupMonitorCore → Except Fault GroupMonitorCore`; the result
  `.error _` stands for the process being stopped by a failed `assert` (or by
  the error statement, see `KERNEL_ERROR`).
* The member `snn_` points to the engine. The recorder only ever reads the
  engine through that pointer, so the engine, as the recorder finds it at the
  time of a call, is held in the field `snn_`; the simulation running between
  two calls is a change of that field made by the caller.
* `FILE*` is `Option FILE`; `NULL` is `none`.
-/

namespace CARLsim

set_option linter.dupNamespace false

/-! ## Values and the output stream -/

/-- A C `float`, kept as its IEEE-754 binary32 bit pattern. -/
structure CFloat where
  bits : Nat
deriving DecidableEq, Repr

/-- The rational number a binary32 pattern stands for (infinities and NaN,
which have no value, are sent to 0). -/
def CFloat.toRat (f : CFloat) : ℚ :=
  let s : ℚ := if f.bits / 2 ^ 31 % 2 = 1 then -1 else 1
  let e : Nat := f.bits / 2 ^ 23 % 256
  let m : Nat := f.bits % 2 ^ 23
  if e = 255 then 0
  else if e = 0 then s * (m : ℚ) / 2 ^ 149
  else s * ((2 ^ 23 + m : Nat) : ℚ) * 2 ^ e / 2 ^ 150

/-- The literal `0.2f`: the binary32 number nearest to 1/5. -/
def lit_0_2f : CFloat := ⟨0x3E4CCCCD⟩

/-- The literal `0.5f`. -/
def lit_0_5f : CFloat := ⟨0x3F000000⟩

/-- The literal `0.7f`: the binary32 number nearest to 7/10. -/
def lit_0_7f : CFloat := ⟨0x3F333333⟩

/-- Number of bytes of an `int` (the header fields are 32 bits wide). -/
def sizeofInt : Nat := 4

/-- Number of bytes of a `float`. -/
def sizeofFloat : Nat := 4

/-- One object handed to `fwrite` with count 1. -/
inductive Item where
  | int (v : Int)
  | float (v : CFloat)
deriving DecidableEq, Repr

/-- The `size` argument of the `fwrite` call that writes the item. -/
def Item.size : Item → Nat
  | .int _ => sizeofInt
  | .float _ => sizeofFloat

/-- An open output stream: `written` is what it has received so far, in
order, and `room` is the number of further objects it will take before
`fwrite` starts to report failure. -/
structure FILE where
  fd : Nat
  room : Nat
  written : List Item
deriving DecidableEq, Repr

/-- Number of bytes the stream has received. -/
def FILE.bytes (f : FILE) : Nat := (f.written.map Item.size).sum

/-- The call `fwrite(&item, size, 1, stream)`: the number of objects written
(1 or 0) and the stream afterwards. -/
def fwrite (item : Item) (stream : FILE) : Nat × FILE :=
  if 0 < stream.room then
    (1, { stream with room := stream.room - 1, written := stream.written ++ [item] })
  else
    (0, stream)

/-! ## The engine, as seen from the recorder -/

/-- Grid dimensions of a group. -/
structure Grid3D where
  x : Int
  y : Int
  z : Int
deriving DecidableEq, Repr

/-- A request the recorder sends to the engine, stamped with the value the
recorder's flag `recordSet_` has at the moment the request is made. -/
inductive EngineRequest where
  | updateGroupMonitor (grpId : Int) (recordSet : Bool)
  | updateSpikeMonitor (grpId : Int) (recordSet : Bool)
deriving DecidableEq, Repr

/-- Modelled from the spec: the engine `CpuSNN` (snn.h) is a collaborator whose
code is not among the sources. It is the capability set of the spec's design
notes: the simulation clock, size and geometry of a group, the log handles,
the requests it has received from the recorder and the error text sent to it. -/
structure CpuSNN where
  simTimeSec : Nat
  simTimeMs : Nat
  groupNumNeurons : Int → Int
  groupGrid3D : Int → Grid3D
  logFpInf : Nat
  logFpErr : Nat
  logFpDeb : Nat
  logFpLog : Nat
  requests : List EngineRequest
  errorLog : List String

/-- The value of `snn_->getSimTimeSec()*1000+snn_->getSimTimeMs()`. The two
getters are declared in snn.h; the sum is taken in `unsigned int`, the type
`startRecording()` gives to `currentTime`. -/
def CpuSNN.currentTime (snn : CpuSNN) : Nat :=
  (snn.simTimeSec * 1000 + snn.simTimeMs) % 2 ^ 32

/-! ## The recorder -/

/-- Modelled from the spec: the members of `GroupMonitorCore` are declared in
group_monitor_core.h, which is not among the sources. The five time members
are the spec's signed time quantities in milliseconds, taken as integers wide
enough for every clock value; the two vectors hold the pushed values as
given. -/
structure GroupMonitorCore where
  snn_ : CpuSNN
  monitorId_ : Int
  grpId_ : Int
  nNeurons_ : Int
  groupFileId_ : Option FILE
  groupFileSignature_ : Int
  groupFileVersion_ : CFloat
  recordSet_ : Bool
  startTime_ : Int
  startTimeLast_ : Int
  stopTime_ : Int
  totalTime_ : Int
  accumTime_ : Int
  grpMonLastUpdated_ : Int
  persistentData_ : Bool
  needToWriteFileHeader_ : Bool
  timeVector_ : List Nat
  dataVector_ : List CFloat
  fpInf_ : Nat
  fpErr_ : Nat
  fpDeb_ : Nat
  fpLog_ : Nat

/-- Why the process stopped. -/
inductive Fault where
  | assertion (condition : String)
  | kernelError (message : String)
  | nullStream
deriving DecidableEq, Repr

/-- Modelled from the spec: `isRecording()` is defined in
group_monitor_core.h; it reports the state flag. -/
def isRecording (self : GroupMonitorCore) : Bool := self.recordSet_

/-- The recorded series as pairs (time, value). -/
def series (self : GroupMonitorCore) : List (Nat × CFloat) :=
  List.zip self.timeVector_ self.dataVector_

/-- The statement `KERNEL_ERROR(message)`. It comes from snn_definitions.h,
which is not among the sources: the message goes to the engine's error log,
and whether the process then stops is the parameter `fatal` (the spec's error
model says it does). -/
def KERNEL_ERROR (fatal : Bool) (message : String) (self : GroupMonitorCore) :
    Except Fault GroupMonitorCore :=
  if fatal then .error (.kernelError message)
  else .ok { self with snn_ := { self.snn_ with errorLog := self.snn_.errorLog ++ [message] } }

/-- Modelled from the spec: `snn_->updateGroupMonitor(grpId_)` is engine code.
The request is kept in the engine's list of requests, with the flag the
recorder shows at that moment; the recorder itself is left as it is. -/
def callUpdateGroupMonitor (self : GroupMonitorCore) : GroupMonitorCore :=
  { self with snn_ := { self.snn_ with
      requests := self.snn_.requests ++ [.updateGroupMonitor self.grpId_ self.recordSet_] } }

/-- Modelled from the spec: `snn_->updateSpikeMonitor(grpId_)` is engine code,
kept like `callUpdateGroupMonitor`. -/
def callUpdateSpikeMonitor (self : GroupMonitorCore) : GroupMonitorCore :=
  { self with snn_ := { self.snn_ with
      requests := self.snn_.requests ++ [.updateSpikeMonitor self.grpId_ self.recordSet_] } }

/-- `GroupMonitorCore::clear()`. -/
def clear (self : GroupMonitorCore) : Except Fault GroupMonitorCore :=
  if isRecording self then .error (.assertion "!isRecording()")
  else
    .ok { self with
      recordSet_ := false
      startTime_ := -1
      startTimeLast_ := -1
      stopTime_ := -1
      accumTime_ := 0
      totalTime_ := -1
      timeVector_ := []
      dataVector_ := [] }

/-- `GroupMonitorCore::pushData(unsigned int time, float data)`. -/
def pushData (time : Nat) (data : CFloat) (self : GroupMonitorCore) :
    Except Fault GroupMonitorCore :=
  if isRecording self then
    .ok { self with
      timeVector_ := self.timeVector_ ++ [time]
      dataVector_ := self.dataVector_ ++ [data] }
  else .error (.assertion "isRecording()")

/-- The time bookkeeping at the end of `startRecording` (source lines 88-103):
the flag is set, the clock is read, and the start times and the accumulated
time are set according to the persistence mode. -/
def startRecordingTimes (self : GroupMonitorCore) : GroupMonitorCore :=
  let self := { self with recordSet_ := true }
  let currentTime : Int := self.snn_.currentTime
  if self.persistentData_ then
    { self with
      startTime_ := if self.startTime_ < 0 then currentTime else self.startTime_
      startTimeLast_ := currentTime
      accumTime_ := if self.totalTime_ > 0 then self.totalTime_ else 0 }
  else
    { self with
      startTime_ := currentTime
      startTimeLast_ := currentTime
      accumTime_ := 0 }

/-- `GroupMonitorCore::startRecording()`. -/
def startRecording (self : GroupMonitorCore) : Except Fault GroupMonitorCore :=
  if isRecording self then .error (.assertion "!isRecording()")
  else
    match (if !self.persistentData_ then clear self else .ok self) with
    | .error e => .error e
    | .ok self => .ok (startRecordingTimes (callUpdateGroupMonitor self))

/-- `GroupMonitorCore::stopRecording()`. -/
def stopRecording (self : GroupMonitorCore) : Except Fault GroupMonitorCore :=
  if !isRecording self then .error (.assertion "isRecording()")
  else if !(self.startTime_ > -1 && self.startTimeLast_ > -1 && self.accumTime_ > -1) then
    .error (.assertion "startTime_>-1 && startTimeLast_>-1 && accumTime_>-1")
  else
    let self := callUpdateSpikeMonitor self
    let self := { self with recordSet_ := false }
    let self := { self with stopTime_ := (self.snn_.currentTime : Int) }
    let self := { self with
      totalTime_ := self.stopTime_ - self.startTimeLast_ + self.accumTime_ }
    if self.totalTime_ ≥ 0 then .ok self else .error (.assertion "totalTime_>=0")

/-- `GroupMonitorCore::init()`. -/
def init (self : GroupMonitorCore) : Except Fault GroupMonitorCore :=
  let self := { self with nNeurons_ := self.snn_.groupNumNeurons self.grpId_ }
  if self.nNeurons_ > 0 then
    match clear self with
    | .error e => .error e
    | .ok self =>
      .ok { self with
        fpInf_ := self.snn_.logFpInf
        fpErr_ := self.snn_.logFpErr
        fpDeb_ := self.snn_.logFpDeb
        fpLog_ := self.snn_.logFpLog }
  else .error (.assertion "nNeurons_> 0")

/-- The constructor `GroupMonitorCore::GroupMonitorCore(snn, monitorId, grpId)`.
`mem` is the storage of the object before construction: the members the
constructor does not assign keep whatever `mem` holds, except the two vectors,
which start empty. -/
def GroupMonitorCore.GroupMonitorCore (mem : GroupMonitorCore) (snn : CpuSNN)
    (monitorId grpId : Int) : Except Fault GroupMonitorCore :=
  init { mem with
    timeVector_ := []
    dataVector_ := []
    snn_ := snn
    grpId_ := grpId
    monitorId_ := monitorId
    groupFileId_ := none
    recordSet_ := false
    grpMonLastUpdated_ := 0
    persistentData_ := false
    needToWriteFileHeader_ := true
    groupFileSignature_ := 206661989
    groupFileVersion_ := lit_0_2f }

/-- One header field: `if (!fwrite(&item, size, 1, groupFileId_)) KERNEL_ERROR(message)`.
Writing through a null stream stops the process. -/
def writeField (fatal : Bool) (item : Item) (message : String) (self : GroupMonitorCore) :
    Except Fault GroupMonitorCore :=
  match self.groupFileId_ with
  | none => .error .nullStream
  | some stream =>
    let r := fwrite item stream
    let self := { self with groupFileId_ := some r.2 }
    if r.1 = 0 then KERNEL_ERROR fatal message self else .ok self

/-- `GroupMonitorCore::writeGroupFileHeader()`. -/
def writeGroupFileHeader (fatal : Bool) (self : GroupMonitorCore) :
    Except Fault GroupMonitorCore :=
  if !self.needToWriteFileHeader_ then .ok self
  else
    match writeField fatal (.int self.groupFileSignature_)
        "GroupMonitorCore: writeSpikeFileHeader has fwrite error" self with
    | .error e => .error e
    | .ok self =>
    match writeField fatal (.float self.groupFileVersion_)
        "GroupMonitorCore: writeGroupFileHeader has fwrite error" self with
    | .error e => .error e
    | .ok self =>
    let grid := self.snn_.groupGrid3D self.grpId_
    match writeField fatal (.int grid.x)
        "GroupMonitorCore: writeGroupFileHeader has fwrite error" self with
    | .error e => .error e
    | .ok self =>
    match writeField fatal (.int grid.y)
        "GroupMonitorCore: writeGroupFileHeader has fwrite error" self with
    | .error e => .error e
    | .ok self =>
    match writeField fatal (.int grid.z)
        "GroupMonitorCore: writeGroupFileHeader has fwrite error" self with
    | .error e => .error e
    | .ok self => .ok { self with needToWriteFileHeader_ := false }

/-- `GroupMonitorCore::setGroupFileId(FILE* groupFileId)`. -/
def setGroupFileId (fatal : Bool) (groupFileId : Option FILE) (self : GroupMonitorCore) :
    Except Fault GroupMonitorCore :=
  if isRecording self then .error (.assertion "!isRecording()")
  else
    match (if self.groupFileId_.isSome then
        KERNEL_ERROR fatal "GroupMonitorCore: setGroupFileId() has already been called." self
      else .ok self) with
    | .error e => .error e
    | .ok self =>
    let self := { self with groupFileId_ := groupFileId }
    if self.groupFileId_.isNone then .ok { self with needToWriteFileHeader_ := false }
    else writeGroupFileHeader fatal { self with needToWriteFileHeader_ := true }

/-! ## Running the recorder -/

/-- The recorder at a moment when the engine is in state `snn`. -/
def atEngine (snn : CpuSNN) (self : GroupMonitorCore) : GroupMonitorCore :=
  { self with snn_ := snn }

/-- `pushData` for each pair of the list, in order. -/
def pushAll : List (Nat × CFloat) → GroupMonitorCore → Except Fault GroupMonitorCore
  | [], self => .ok self
  | (time, data) :: rest, self =>
    match pushData time data self with
    | .error e => .error e
    | .ok self => pushAll rest self

/-- What happens in one session: the engine as `startRecording()` finds it,
the pairs pushed while recording, the engine as `stopRecording()` finds it. -/
structure Session where
  start : CpuSNN
  pushes : List (Nat × CFloat)
  stop : CpuSNN

/-- Length of a session in milliseconds of the clock the recorder reads. -/
def Session.elapsed (s : Session) : Int :=
  (s.stop.currentTime : Int) - (s.start.currentTime : Int)

/-- One session: `startRecording()`, the pushes, `stopRecording()`. -/
def runSession (s : Session) (self : GroupMonitorCore) : Except Fault GroupMonitorCore :=
  match startRecording (atEngine s.start self) with
  | .error e => .error e
  | .ok self =>
    match pushAll s.pushes self with
    | .error e => .error e
    | .ok self => stopRecording (atEngine s.stop self)

/-- Sessions one after the other, with no other call in between. -/
def runSessions : List Session → GroupMonitorCore → Except Fault GroupMonitorCore
  | [], self => .ok self
  | s :: rest, self =>
    match runSession s self with
    | .error e => .error e
    | .ok self => runSessions rest self

/-- `k` calls of `writeGroupFileHeader()` in a row. -/
def writeGroupFileHeaderTimes (fatal : Bool) : Nat → GroupMonitorCore →
    Except Fault GroupMonitorCore
  | 0, self => .ok self
  | k + 1, self =>
    match writeGroupFileHeader fatal self with
    | .error e => .error e
    | .ok self => writeGroupFileHeaderTimes fatal k self

/-- `GroupMonitorCore::print()`. -/
def print (self : GroupMonitorCore) : Except Fault GroupMonitorCore :=
  if isRecording self then .error (.assertion "!isRecording()") else .ok self

/-- Modelled from the spec: `setPersistentData(bool)` is defined in
group_monitor_core.h. The spec calls the mode a configuration flag that is
mutable only while not recording; here it can be set in any state, which
includes every run that the stricter reading allows. -/
def setPersistentData (persistentData : Bool) (self : GroupMonitorCore) :
    Except Fault GroupMonitorCore :=
  .ok { self with persistentData_ := persistentData }

/-- What can happen to a recorder from outside: a call of one of its public
methods, or the engine moving on to another state (`simulate`). -/
inductive Op where
  | clear
  | print
  | pushData (time : Nat) (data : CFloat)
  | startRecording
  | stopRecording
  | setGroupFileId (groupFileId : Option FILE)
  | simulate (snn : CpuSNN)
  | setPersistentData (persistentData : Bool)

/-- The effect of one `Op`. -/
def Op.run (fatal : Bool) : Op → GroupMonitorCore → Except Fault GroupMonitorCore
  | .clear, self => CARLsim.clear self
  | .print, self => CARLsim.print self
  | .pushData time data, self => CARLsim.pushData time data self
  | .startRecording, self => CARLsim.startRecording self
  | .stopRecording, self => CARLsim.stopRecording self
  | .setGroupFileId groupFileId, self => CARLsim.setGroupFileId fatal groupFileId self
  | .simulate snn, self => .ok (atEngine snn self)
  | .setPersistentData persistentData, self => CARLsim.setPersistentData persistentData self

/-- Whether the `Op` is a `setGroupFileId` with a stream that is not null. -/
def Op.attaches : Op → Bool
  | .setGroupFileId (some _) => true
  | _ => false

/-- A list of `Op`s, one after the other. -/
def runOps (fatal : Bool) : List Op → GroupMonitorCore → Except Fault GroupMonitorCore
  | [], self => .ok self
  | op :: rest, self =>
    match op.run fatal self with
    | .error e => .error e
    | .ok self => runOps fatal rest self

/-- Whether the `startRecording` and `stopRecording` calls of the list strictly
alternate; `recording` tells which one is due first: a stop if it is true, a
start if it is false. -/
def alternates : Bool → List Op → Bool
  | _, [] => true
  | recording, .startRecording :: rest => !recording && alternates true rest
  | recording, .stopRecording :: rest => recording && alternates false rest
  | recording, _ :: rest => alternates recording rest

/-- Whether the `Op` is a `setGroupFileId` call. -/
def Op.isSetGroupFileId : Op → Bool
  | .setGroupFileId _ => true
  | _ => false

/-- The clock value read by the latest `startRecording` call of a run of the
list from `self`, given that it was `last` before the run (`none`: no such call
yet). -/
def lastStartReading (fatal : Bool) : List Op → GroupMonitorCore → Option Nat → Option Nat
  | [], _, last => last
  | op :: rest, self, last =>
    match op.run fatal self with
    | .error _ => last
    | .ok next =>
      lastStartReading fatal rest next
        (match op with
          | .startRecording => some self.snn_.currentTime
          | _ => last)

/-- The pairs of the successful `pushData` calls since the last call of
`clear()`, in call order, after a run of the list from `self`, given that they
were `pushed` before the run. A `startRecording` in non-persistent mode calls
`clear()`. -/
def pushedSinceLastClear (fatal : Bool) :
    List Op → GroupMonitorCore → List (Nat × CFloat) → List (Nat × CFloat)
  | [], _, pushed => pushed
  | op :: rest, self, pushed =>
    match op.run fatal self with
    | .error _ => pushed
    | .ok next =>
      pushedSinceLastClear fatal rest next
        (match op with
          | .pushData time data => pushed ++ [(time, data)]
          | .clear => []
          | .startRecording => if self.persistentData_ then pushed else []
          | _ => pushed)

/-- All the pairs pushed in the sessions of the list, in call order. -/
def allPushes : List Session → List (Nat × CFloat)
  | [] => []
  | s :: rest => s.pushes ++ allPushes rest

/-- The members that record time and data, the flag, the mode and the clock
the recorder reads are the same in the two states. -/
def sameRecording (g g1 : GroupMonitorCore) : Prop :=
  g1.recordSet_ = g.recordSet_ ∧ g1.persistentData_ = g.persistentData_ ∧
  g1.startTime_ = g.startTime_ ∧ g1.startTimeLast_ = g.startTimeLast_ ∧
  g1.stopTime_ = g.stopTime_ ∧ g1.totalTime_ = g.totalTime_ ∧
  g1.accumTime_ = g.accumTime_ ∧
  g1.timeVector_ = g.timeVector_ ∧ g1.dataVector_ = g.dataVector_ ∧
  g1.snn_.currentTime = g.snn_.currentTime

/-! ## Concrete engines, recorders, streams and sessions -/

/-- An engine given by its clock and by the size and the grid it reports for
every group, with empty logs. -/
def engineAt (sec ms : Nat) (numNeurons : Int) (grid : Grid3D) : CpuSNN :=
  { simTimeSec := sec
    simTimeMs := ms
    groupNumNeurons := fun _ => numNeurons
    groupGrid3D := fun _ => grid
    logFpInf := 1
    logFpErr := 2
    logFpDeb := 3
    logFpLog := 4
    requests := []
    errorLog := [] }

/-- A block of storage with arbitrary contents, on which a recorder is built. -/
def rawStorage : GroupMonitorCore :=
  { snn_ := engineAt 7 7 (-7) ⟨7, 7, 7⟩
    monitorId_ := 77
    grpId_ := 77
    nNeurons_ := -77
    groupFileId_ := some ⟨9, 9, [.int 9]⟩
    groupFileSignature_ := 77
    groupFileVersion_ := ⟨77⟩
    recordSet_ := true
    startTime_ := 77
    startTimeLast_ := -77
    stopTime_ := 77
    totalTime_ := 77
    accumTime_ := -77
    grpMonLastUpdated_ := 77
    persistentData_ := true
    needToWriteFileHeader_ := false
    timeVector_ := [7]
    dataVector_ := [⟨7⟩]
    fpInf_ := 77
    fpErr_ := 77
    fpDeb_ := 77
    fpLog_ := 77 }

/-- The five objects of the header, in the order of the `fwrite` calls of
`writeGroupFileHeader()`. -/
def headerItems (self : GroupMonitorCore) : List Item :=
  [ .int self.groupFileSignature_,
    .float self.groupFileVersion_,
    .int (self.snn_.groupGrid3D self.grpId_).x,
    .int (self.snn_.groupGrid3D self.grpId_).y,
    .int (self.snn_.groupGrid3D self.grpId_).z ]

/-- A recorder right after construction for a group of 5 neurons on a
5 x 1 x 1 grid. -/
def fresh : GroupMonitorCore :=
  match GroupMonitorCore.GroupMonitorCore rawStorage (engineAt 0 0 5 ⟨5, 1, 1⟩) 0 0 with
  | .ok g => g
  | .error _ => rawStorage

/-- A recorder right after construction for a group of 5 neurons, switched to
persistent mode. -/
def freshPersistent : GroupMonitorCore :=
  match GroupMonitorCore.GroupMonitorCore rawStorage (engineAt 0 0 5 ⟨5, 1, 1⟩) 0 0 with
  | .ok g => { g with persistentData_ := true }
  | .error _ => rawStorage

/-- An idle recorder in non-persistent mode that still holds what an earlier
session, from t = 10 to t = 77 with one push, left behind. -/
def usedTransient : GroupMonitorCore :=
  match runSession
      { start := engineAt 0 10 5 ⟨5, 1, 1⟩
        pushes := [(10, lit_0_7f)]
        stop := engineAt 0 77 5 ⟨5, 1, 1⟩ } fresh with
  | .ok g => g
  | .error _ => fresh

/-- A recorder that is recording, started at t = 100, and holds the pair
(100, 0.5f) already. -/
def recordingOne : GroupMonitorCore :=
  match startRecording (atEngine (engineAt 0 100 5 ⟨5, 1, 1⟩) fresh) with
  | .error _ => fresh
  | .ok g =>
    match pushData 100 lit_0_5f g with
    | .ok g => g
    | .error _ => fresh

/-- An empty stream with plenty of room. -/
def sinkA : FILE := { fd := 3, room := 100, written := [] }

/-- Another empty stream. -/
def sinkB : FILE := { fd := 4, room := 100, written := [] }

/-- The recorder `fresh` at the point where `setGroupFileId` calls
`writeGroupFileHeader()`: `sinkA` stored, the flag set. -/
def freshWithSinkA : GroupMonitorCore :=
  { fresh with groupFileId_ := some sinkA, needToWriteFileHeader_ := true }

/-- The recorder `fresh` after `setGroupFileId(sinkA)`. -/
def attachedA : GroupMonitorCore :=
  match setGroupFileId true (some sinkA) fresh with
  | .ok g => g
  | .error _ => fresh

/-- The session of the spec's first example: start at t = 100, two pushes,
stop at t = 200. -/
def session_100_200 : Session :=
  { start := engineAt 0 100 5 ⟨5, 1, 1⟩
    pushes := [(100, lit_0_5f), (150, lit_0_7f)]
    stop := engineAt 0 200 5 ⟨5, 1, 1⟩ }

/-- Session A of the spec's second example: t = 0 to t = 50. -/
def session_0_50 : Session :=
  { start := engineAt 0 0 5 ⟨5, 1, 1⟩, pushes := [], stop := engineAt 0 50 5 ⟨5, 1, 1⟩ }

/-- Session B of the spec's second example: t = 200 to t = 230. -/
def session_200_230 : Session :=
  { start := engineAt 0 200 5 ⟨5, 1, 1⟩, pushes := [], stop := engineAt 0 230 5 ⟨5, 1, 1⟩ }

/-- A persistent session from t = 0 to t = 50 with one push. -/
def session_0_50_push : Session :=
  { start := engineAt 0 0 5 ⟨5, 1, 1⟩
    pushes := [(10, lit_0_5f)]
    stop := engineAt 0 50 5 ⟨5, 1, 1⟩ }

/-- A persistent session from t = 200 to t = 230 with two pushes. -/
def session_200_230_push : Session :=
  { start := engineAt 0 200 5 ⟨5, 1, 1⟩
    pushes := [(210, lit_0_7f), (220, lit_0_5f)]
    stop := engineAt 0 230 5 ⟨5, 1, 1⟩ }

/-- The recorder `recordingOne` after `stopRecording()` at t = 100. -/
def stoppedOne : GroupMonitorCore :=
  match stopRecording recordingOne with
  | .ok g => g
  | .error _ => fresh

/-- A run on the recorder `fresh`: a non-persistent session from t = 100 to
t = 200 with two pushes, `sinkA` attached, the mode set to persistent, then a
start at t = 300 and one push. -/
def exampleRun : List Op :=
  [ .simulate (engineAt 0 100 5 ⟨5, 1, 1⟩), .startRecording,
    .pushData 100 lit_0_5f, .pushData 150 lit_0_7f,
    .simulate (engineAt 0 200 5 ⟨5, 1, 1⟩), .stopRecording,
    .setGroupFileId (some sinkA), .setPersistentData true,
    .simulate (engineAt 0 300 5 ⟨5, 1, 1⟩), .startRecording,
    .pushData 310 lit_0_5f ]

/-- The recorder at the end of `exampleRun`; it is recording. -/
def exampleRunEnd : GroupMonitorCore :=
  match runOps true exampleRun fresh with
  | .ok g => g
  | .error _ => fresh

/-- Calls that attach no stream: a session from t = 100 to t = 200 with one
push, then `clear()`. -/
def runWithoutAttach : List Op :=
  [ .simulate (engineAt 0 100 5 ⟨5, 1, 1⟩), .startRecording, .pushData 100 lit_0_5f,
    .simulate (engineAt 0 200 5 ⟨5, 1, 1⟩), .stopRecording, .clear ]

/-- The recorder `attachedA` at the end of `runWithoutAttach`. -/
def attachedAEnd : GroupMonitorCore :=
  match runOps true runWithoutAttach attachedA with
  | .ok g => g
  | .error _ => fresh

/-- The recorder `attachedA` after `setGroupFileId(sinkB)` with an error
statement that only prints. -/
def replacedB : GroupMonitorCore :=
  match setGroupFileId false (some sinkB) attachedA with
  | .ok g => g
  | .error _ => fresh

/-! # Theorems -/

/-! ## Recording time -/

theorem currentTime_requests (snn : CpuSNN) (r : List EngineRequest) :
    ({ snn with requests := r } : CpuSNN).currentTime = snn.currentTime := rfl

theorem pushAll_recording (ps : List (Nat × CFloat)) (g : GroupMonitorCore)
    (h : g.recordSet_ = true) :
    pushAll ps g = .ok { g with
      timeVector_ := g.timeVector_ ++ ps.map Prod.fst
      dataVector_ := g.dataVector_ ++ ps.map Prod.snd } := by
  induction ps generalizing g with
  | nil => simp [pushAll]
  | cons p ps ih =>
    obtain ⟨t, d⟩ := p
    simp [pushAll, pushData, isRecording, h]
    rw [ih _ (by simp [h])]
    simp

theorem runSession_spec (s : Session) (g : GroupMonitorCore)
    (hidle : g.recordSet_ = false)
    (hclock : s.start.currentTime ≤ s.stop.currentTime) :
    ∃ g1, runSession s g = .ok g1 ∧ g1.recordSet_ = false ∧
      g1.persistentData_ = g.persistentData_ ∧
      g1.totalTime_ = s.elapsed + (if g.persistentData_ then max g.totalTime_ 0 else 0) := by
  have hc : (s.start.currentTime : Int) ≤ s.stop.currentTime := by exact_mod_cast hclock
  have h0 : (0 : Int) ≤ s.start.currentTime := Int.natCast_nonneg _
  cases hp : g.persistentData_
  · simp [runSession, startRecording, clear, isRecording, atEngine, hidle, hp]
    rw [pushAll_recording _ _ (by simp [startRecordingTimes, callUpdateGroupMonitor])]
    simp [stopRecording, isRecording, startRecordingTimes, callUpdateGroupMonitor,
      callUpdateSpikeMonitor, atEngine, hp, Session.elapsed, currentTime_requests, hclock]
    rw [if_neg (by omega)]
    exact ⟨_, rfl, rfl, rfl, rfl⟩
  · simp [runSession, startRecording, isRecording, atEngine, hidle, hp]
    rw [pushAll_recording _ _ (by simp [startRecordingTimes, callUpdateGroupMonitor])]
    simp [stopRecording, isRecording, startRecordingTimes, callUpdateGroupMonitor,
      callUpdateSpikeMonitor, atEngine, hp, Session.elapsed, currentTime_requests]
    have hacc : (if 0 < g.totalTime_ then g.totalTime_ else 0) = max g.totalTime_ 0 := by
      split_ifs <;> omega
    have hst : ¬ ((if g.startTime_ < 0 then (s.start.currentTime : Int) else g.startTime_) ≤ -1) := by
      split_ifs <;> omega
    rw [hacc, if_neg (by omega), if_pos (by omega)]
    exact ⟨_, rfl, rfl, rfl, rfl⟩

theorem runSessions_persistent (l : List Session) (g : GroupMonitorCore)
    (hidle : g.recordSet_ = false) (hmode : g.persistentData_ = true)
    (hclock : ∀ s ∈ l, s.start.currentTime ≤ s.stop.currentTime) :
    ∃ g1, runSessions l g = .ok g1 ∧ g1.recordSet_ = false ∧ g1.persistentData_ = true ∧
      (l = [] → g1.totalTime_ = g.totalTime_) ∧
      (l ≠ [] → g1.totalTime_ = max g.totalTime_ 0 + (l.map Session.elapsed).sum) := by
  induction l generalizing g with
  | nil => exact ⟨g, rfl, hidle, hmode, by simp⟩
  | cons s rest ih =>
    have hs : s.start.currentTime ≤ s.stop.currentTime := hclock s (by simp)
    obtain ⟨g1, hrun, hidle1, hmode1, htot1⟩ := runSession_spec s g hidle hs
    rw [hmode] at hmode1
    obtain ⟨g2, hrest, hidle2, hmode2, hnil, hcons⟩ :=
      ih g1 hidle1 hmode1 (fun t ht => hclock t (by simp [ht]))
    refine ⟨g2, ?_, hidle2, hmode2, by simp, fun _ => ?_⟩
    · simp [runSessions, hrun, hrest]
    · have he : 0 ≤ s.elapsed := by
        have : (s.start.currentTime : Int) ≤ s.stop.currentTime := by exact_mod_cast hs
        simp only [Session.elapsed]
        omega
      simp only [hmode, if_true] at htot1
      by_cases hr : rest = []
      · rw [hnil hr, htot1]
        simp [hr]
        omega
      · rw [hcons hr, htot1]
        simp only [List.map_cons, List.sum_cons]
        omega

theorem usedTransient_state :
    usedTransient.recordSet_ = false ∧ usedTransient.totalTime_ = 67 ∧
      usedTransient.startTime_ = 10 ∧ usedTransient.stopTime_ = 77 ∧
      series usedTransient = [(10, lit_0_7f)] :=
  ⟨rfl, rfl, rfl, rfl, rfl⟩

/-- C1. Non-persistent duration. From every idle recorder with
`persistentData_ = false`, whatever its time members and its series hold, a
session that starts when the clock reads t1 and stops when it reads t2 ≥ t1
(with any pushes in between) runs to its end and leaves
`totalTime_ = t2 - t1`. -/
theorem nonpersistent_totalTime (g : GroupMonitorCore) (s : Session)
    (hidle : g.recordSet_ = false) (hmode : g.persistentData_ = false)
    (hclock : s.start.currentTime ≤ s.stop.currentTime) :
    ∃ g1, runSession s g = .ok g1 ∧
      g1.totalTime_ = (s.stop.currentTime : Int) - (s.start.currentTime : Int) := by
  obtain ⟨g1, hrun, _, _, htot⟩ := runSession_spec s g hidle hclock
  refine ⟨g1, hrun, ?_⟩
  simpa [hmode, Session.elapsed] using htot

/-- Witness of C1: begin at t = 100, end at t = 200 gives `totalTime_ = 100`. -/
theorem nonpersistent_totalTime_witness :
    ∃ g1, runSession session_100_200 usedTransient = .ok g1 ∧ g1.totalTime_ = 100 :=
  nonpersistent_totalTime usedTransient session_100_200 rfl rfl (by decide)

/-- C2. Persistent accumulation. From an idle recorder with
`persistentData_ = true` whose `totalTime_` is the -1 that the constructor and
`clear()` leave, every non-empty list of sessions, each stopping no earlier
than it starts, runs to its end, and then `totalTime_` is the sum of the
lengths of the sessions. -/
theorem persistent_totalTime_sum (g : GroupMonitorCore) (l : List Session)
    (hidle : g.recordSet_ = false) (hmode : g.persistentData_ = true)
    (hfresh : g.totalTime_ = -1) (hne : l ≠ [])
    (hclock : ∀ s ∈ l, s.start.currentTime ≤ s.stop.currentTime) :
    ∃ g1, runSessions l g = .ok g1 ∧ g1.totalTime_ = (l.map Session.elapsed).sum := by
  obtain ⟨g1, hrun, _, _, _, htot⟩ := runSessions_persistent l g hidle hmode hclock
  refine ⟨g1, hrun, ?_⟩
  rw [htot hne, hfresh]
  simp

/-- Witness of C2: sessions [0,50] and [200,230] give `totalTime_ = 80`. -/
theorem persistent_totalTime_sum_witness :
    ∃ g1, runSessions [session_0_50, session_200_230] freshPersistent = .ok g1 ∧
      g1.totalTime_ = 80 :=
  persistent_totalTime_sum freshPersistent [session_0_50, session_200_230] rfl rfl rfl
    (by simp) (by intro s hs; simp at hs; rcases hs with rfl | rfl <;> decide)

/-- C3. Persistent monotonicity. In persistent mode, two sessions run one
after the other from an idle recorder, each stopping no earlier than it
starts and with no `clear()` in between, both run to their end, and
`totalTime_` after the second is at least `totalTime_` after the first. -/
theorem persistent_totalTime_mono (g : GroupMonitorCore) (s1 s2 : Session)
    (hidle : g.recordSet_ = false) (hmode : g.persistentData_ = true)
    (h1 : s1.start.currentTime ≤ s1.stop.currentTime)
    (h2 : s2.start.currentTime ≤ s2.stop.currentTime) :
    ∃ g1 g2, runSession s1 g = .ok g1 ∧ runSession s2 g1 = .ok g2 ∧
      g1.totalTime_ ≤ g2.totalTime_ := by
  obtain ⟨g1, hrun1, hidle1, hmode1, _⟩ := runSession_spec s1 g hidle h1
  rw [hmode] at hmode1
  obtain ⟨g2, hrun2, _, _, htot2⟩ := runSession_spec s2 g1 hidle1 h2
  refine ⟨g1, g2, hrun1, hrun2, ?_⟩
  have he : (s2.start.currentTime : Int) ≤ s2.stop.currentTime := by exact_mod_cast h2
  simp only [hmode1, if_true, Session.elapsed] at htot2
  omega

/-- Witness of C3: the two sessions of the spec's second example. -/
theorem persistent_totalTime_mono_witness :
    ∃ g1 g2, runSession session_0_50 freshPersistent = .ok g1 ∧
      runSession session_200_230 g1 = .ok g2 ∧ g1.totalTime_ ≤ g2.totalTime_ :=
  persistent_totalTime_mono freshPersistent session_0_50 session_200_230 rfl rfl
    (by decide) (by decide)

/-! ## Pushing data, clearing, construction -/

/-- C4. `pushData` on an idle recorder stops on the assertion, so no state with
a longer series comes out of it; on a recording one it succeeds and changes
nothing but the two vectors, each of which gets the new value at its end, so
the series is the old series followed by the one pair (time, data). -/
theorem pushData_spec (g : GroupMonitorCore) (time : Nat) (data : CFloat) :
    (g.recordSet_ = false → pushData time data g = .error (.assertion "isRecording()")) ∧
    (g.recordSet_ = true →
      ∃ g1, pushData time data g = .ok g1 ∧
        g1 = { g with timeVector_ := g.timeVector_ ++ [time]
                      dataVector_ := g.dataVector_ ++ [data] } ∧
        (g.timeVector_.length = g.dataVector_.length →
          series g1 = series g ++ [(time, data)])) := by
  constructor
  · intro h
    simp [pushData, isRecording, h]
  · intro h
    refine ⟨_, by simp [pushData, isRecording, h], rfl, ?_⟩
    intro hlen
    simp [series, List.zip_append hlen]

/-- Witness of C4: a push on an idle recorder fails, and a push of (150, 0.7f)
on a recording one that holds (100, 0.5f) gives the series of both. -/
theorem pushData_spec_witness :
    pushData 150 lit_0_7f usedTransient = .error (.assertion "isRecording()") ∧
    ∃ g1, pushData 150 lit_0_7f recordingOne = .ok g1 ∧
      g1 = { recordingOne with timeVector_ := recordingOne.timeVector_ ++ [150]
                               dataVector_ := recordingOne.dataVector_ ++ [lit_0_7f] } ∧
      (recordingOne.timeVector_.length = recordingOne.dataVector_.length →
        series g1 = series recordingOne ++ [(150, lit_0_7f)]) :=
  ⟨(pushData_spec usedTransient 150 lit_0_7f).1 rfl,
   (pushData_spec recordingOne 150 lit_0_7f).2 rfl⟩

/-- C5. `clear()` on a recording recorder stops on the assertion; on an idle
one it always succeeds and leaves both vectors (hence the series) empty,
`startTime_ = startTimeLast_ = stopTime_ = totalTime_ = -1`, `accumTime_ = 0`,
the recorder idle, and every other member as it was. -/
theorem clear_spec (g : GroupMonitorCore) :
    (g.recordSet_ = true → clear g = .error (.assertion "!isRecording()")) ∧
    (g.recordSet_ = false →
      ∃ g1, clear g = .ok g1 ∧
        g1.timeVector_ = [] ∧ g1.dataVector_ = [] ∧ series g1 = [] ∧
        g1.startTime_ = -1 ∧ g1.startTimeLast_ = -1 ∧ g1.stopTime_ = -1 ∧
        g1.totalTime_ = -1 ∧ g1.accumTime_ = 0 ∧ g1.recordSet_ = false ∧
        g1 = { g with startTime_ := -1, startTimeLast_ := -1, stopTime_ := -1,
                      totalTime_ := -1, accumTime_ := 0,
                      timeVector_ := [], dataVector_ := [] }) := by
  constructor
  · intro h
    simp [clear, isRecording, h]
  · intro h
    refine ⟨{ g with recordSet_ := false, startTime_ := -1, startTimeLast_ := -1,
                     stopTime_ := -1, accumTime_ := 0, totalTime_ := -1,
                     timeVector_ := [], dataVector_ := [] },
      by simp [clear, isRecording, h], rfl, rfl, rfl, rfl, rfl, rfl, rfl, rfl, rfl, ?_⟩
    simp [← h]

/-- Witness of C5: `clear()` fails on a recording recorder and resets an idle
one that holds old times and data. -/
theorem clear_spec_witness :
    clear recordingOne = .error (.assertion "!isRecording()") ∧
    ∃ g1, clear usedTransient = .ok g1 ∧
      g1.timeVector_ = [] ∧ g1.dataVector_ = [] ∧ series g1 = [] ∧
      g1.startTime_ = -1 ∧ g1.startTimeLast_ = -1 ∧ g1.stopTime_ = -1 ∧
      g1.totalTime_ = -1 ∧ g1.accumTime_ = 0 ∧ g1.recordSet_ = false ∧
      g1 = { usedTransient with startTime_ := -1, startTimeLast_ := -1, stopTime_ := -1,
                                totalTime_ := -1, accumTime_ := 0,
                                timeVector_ := [], dataVector_ := [] } :=
  ⟨(clear_spec recordingOne).1 rfl, (clear_spec usedTransient).2 rfl⟩

/-- C10. Construction stops on the assertion of `init()` when the engine
reports a neuron count of 0 or less for the group; for every positive count it
succeeds, whatever the storage held before, and the recorder is idle, with an
empty series, `startTime_ = startTimeLast_ = stopTime_ = totalTime_ = -1`,
`accumTime_ = 0`, `persistentData_ = false` and no stream attached. -/
theorem construction_spec (mem : GroupMonitorCore) (snn : CpuSNN) (monitorId grpId : Int) :
    (snn.groupNumNeurons grpId ≤ 0 →
      GroupMonitorCore.GroupMonitorCore mem snn monitorId grpId =
        .error (.assertion "nNeurons_> 0")) ∧
    (0 < snn.groupNumNeurons grpId →
      ∃ g, GroupMonitorCore.GroupMonitorCore mem snn monitorId grpId = .ok g ∧
        g.recordSet_ = false ∧ g.timeVector_ = [] ∧ g.dataVector_ = [] ∧ series g = [] ∧
        g.startTime_ = -1 ∧ g.startTimeLast_ = -1 ∧ g.stopTime_ = -1 ∧
        g.totalTime_ = -1 ∧ g.accumTime_ = 0 ∧ g.persistentData_ = false ∧
        g.groupFileId_ = none ∧ g.nNeurons_ = snn.groupNumNeurons grpId) := by
  constructor
  · intro h
    simp [GroupMonitorCore.GroupMonitorCore, init, Int.not_lt.mpr h]
  · intro h
    simp [GroupMonitorCore.GroupMonitorCore, init, clear, isRecording, h, series]

/-- Witness of C10: a count of 0 makes construction fail, a count of 5 gives
the initial state. -/
theorem construction_spec_witness :
    GroupMonitorCore.GroupMonitorCore rawStorage (engineAt 0 0 0 ⟨0, 0, 0⟩) 1 2 =
      .error (.assertion "nNeurons_> 0") ∧
    ∃ g, GroupMonitorCore.GroupMonitorCore rawStorage (engineAt 0 0 5 ⟨5, 1, 1⟩) 1 2 = .ok g ∧
      g.recordSet_ = false ∧ g.timeVector_ = [] ∧ g.dataVector_ = [] ∧ series g = [] ∧
      g.startTime_ = -1 ∧ g.startTimeLast_ = -1 ∧ g.stopTime_ = -1 ∧
      g.totalTime_ = -1 ∧ g.accumTime_ = 0 ∧ g.persistentData_ = false ∧
      g.groupFileId_ = none ∧ g.nNeurons_ = (engineAt 0 0 5 ⟨5, 1, 1⟩).groupNumNeurons 2 :=
  ⟨(construction_spec rawStorage (engineAt 0 0 0 ⟨0, 0, 0⟩) 1 2).1 (by decide),
   (construction_spec rawStorage (engineAt 0 0 5 ⟨5, 1, 1⟩) 1 2).2 (by decide)⟩

/-! ## The group file and its header -/

theorem writeField_ok (fatal : Bool) (item : Item) (message : String)
    (g : GroupMonitorCore) (f : FILE) (hf : g.groupFileId_ = some f) (hroom : 0 < f.room) :
    writeField fatal item message g =
      .ok { g with
        groupFileId_ := some { f with room := f.room - 1, written := f.written ++ [item] } } := by
  simp [writeField, hf, fwrite, hroom]

theorem writeGroupFileHeader_ok (fatal : Bool) (g : GroupMonitorCore) (f : FILE)
    (hflag : g.needToWriteFileHeader_ = true) (hf : g.groupFileId_ = some f)
    (hroom : 5 ≤ f.room) :
    writeGroupFileHeader fatal g =
      .ok { g with
        groupFileId_ := some { f with room := f.room - 5, written := f.written ++ headerItems g }
        needToWriteFileHeader_ := false } := by
  unfold writeGroupFileHeader
  simp only [hflag, Bool.not_true, Bool.false_eq_true, if_false]
  rw [writeField_ok fatal _ _ g f hf (by omega)]
  dsimp only
  rw [writeField_ok fatal _ _ _ _ rfl (by dsimp only; omega)]
  dsimp only
  rw [writeField_ok fatal _ _ _ _ rfl (by dsimp only; omega)]
  dsimp only
  rw [writeField_ok fatal _ _ _ _ rfl (by dsimp only; omega)]
  dsimp only
  rw [writeField_ok fatal _ _ _ _ rfl (by dsimp only; omega)]
  simp [headerItems]
  omega

theorem writeGroupFileHeader_noop (fatal : Bool) (g : GroupMonitorCore)
    (hflag : g.needToWriteFileHeader_ = false) : writeGroupFileHeader fatal g = .ok g := by
  simp [writeGroupFileHeader, hflag]

theorem writeGroupFileHeaderTimes_noop (fatal : Bool) (k : Nat) (g : GroupMonitorCore)
    (hflag : g.needToWriteFileHeader_ = false) :
    writeGroupFileHeaderTimes fatal k g = .ok g := by
  induction k with
  | zero => rfl
  | succ k ih => simp [writeGroupFileHeaderTimes, writeGroupFileHeader_noop fatal g hflag, ih]

theorem constructor_ok (mem : GroupMonitorCore) (snn : CpuSNN) (monitorId grpId : Int)
    (g : GroupMonitorCore)
    (hc : GroupMonitorCore.GroupMonitorCore mem snn monitorId grpId = .ok g) :
    g.recordSet_ = false ∧ g.groupFileId_ = none ∧ g.needToWriteFileHeader_ = true ∧
      g.groupFileSignature_ = 206661989 ∧ g.groupFileVersion_ = lit_0_2f ∧
      g.snn_ = snn ∧ g.grpId_ = grpId := by
  simp only [GroupMonitorCore.GroupMonitorCore, init, clear, isRecording] at hc
  split at hc
  · simp at hc
    subst hc
    simp
  · simp at hc

theorem startRecording_flag (g g1 : GroupMonitorCore) (h : startRecording g = .ok g1) :
    g1.needToWriteFileHeader_ = g.needToWriteFileHeader_ := by
  unfold startRecording at h
  split at h
  · simp at h
  · rename_i hrec
    cases hp : g.persistentData_
    · simp [hp, clear, hrec] at h
      subst h
      simp [startRecordingTimes, callUpdateGroupMonitor]
    · simp [hp] at h
      subst h
      simp [startRecordingTimes, callUpdateGroupMonitor, hp]

theorem stopRecording_flag (g g1 : GroupMonitorCore) (h : stopRecording g = .ok g1) :
    g1.needToWriteFileHeader_ = g.needToWriteFileHeader_ := by
  simp only [stopRecording] at h
  split_ifs at h
  simp only [Except.ok.injEq] at h
  subst h
  simp [callUpdateSpikeMonitor]

theorem run_flag (fatal : Bool) (op : Op) (g g1 : GroupMonitorCore)
    (hop : op.attaches = false) (hrun : op.run fatal g = .ok g1)
    (hflag : g.needToWriteFileHeader_ = false) : g1.needToWriteFileHeader_ = false := by
  cases op with
  | clear =>
    simp only [Op.run, clear] at hrun
    split at hrun
    · simp at hrun
    · simp at hrun
      subst hrun
      exact hflag
  | print =>
    simp only [Op.run, print] at hrun
    split at hrun
    · simp at hrun
    · simp at hrun
      subst hrun
      exact hflag
  | pushData time data =>
    simp only [Op.run, pushData] at hrun
    split at hrun
    · simp at hrun
      subst hrun
      exact hflag
    · simp at hrun
  | startRecording => rw [startRecording_flag g g1 hrun, hflag]
  | stopRecording => rw [stopRecording_flag g g1 hrun, hflag]
  | setGroupFileId groupFileId =>
    cases groupFileId with
    | some f => simp [Op.attaches] at hop
    | none =>
      simp only [Op.run, setGroupFileId] at hrun
      split at hrun
      · simp at hrun
      · split at hrun
        · simp at hrun
        · simp at hrun
          subst hrun
          rfl
  | simulate snn =>
    simp only [Op.run, atEngine] at hrun
    simp at hrun
    subst hrun
    exact hflag
  | setPersistentData b =>
    simp only [Op.run, setPersistentData] at hrun
    simp at hrun
    subst hrun
    exact hflag

theorem runOps_flag (fatal : Bool) (ops : List Op) (g g1 : GroupMonitorCore)
    (hops : ∀ op ∈ ops, op.attaches = false) (hrun : runOps fatal ops g = .ok g1)
    (hflag : g.needToWriteFileHeader_ = false) : g1.needToWriteFileHeader_ = false := by
  induction ops generalizing g with
  | nil =>
    simp [runOps] at hrun
    subst hrun
    exact hflag
  | cons op rest ih =>
    simp only [runOps] at hrun
    split at hrun
    · simp at hrun
    · rename_i g0 h0
      exact ih g0 (fun o ho => hops o (by simp [ho])) hrun
        (run_flag fatal op g g0 (hops op (by simp)) h0 hflag)

/-- C7. Null sink. On a recorder just constructed, `setGroupFileId(NULL)`
succeeds; the result is the recorder with `needToWriteFileHeader_ = false` and
nothing else changed (no stream is attached, nothing is written or logged);
any number of `writeGroupFileHeader()` calls then return it unchanged, and so
does `writeGroupFileHeader()` in every state reached from it by public calls
and engine steps that attach no stream. -/
theorem setGroupFileId_null (fatal : Bool) (mem : GroupMonitorCore) (snn : CpuSNN)
    (monitorId grpId : Int) (g : GroupMonitorCore)
    (hc : GroupMonitorCore.GroupMonitorCore mem snn monitorId grpId = .ok g) :
    ∃ g1, setGroupFileId fatal none g = .ok g1 ∧
      g1 = { g with needToWriteFileHeader_ := false } ∧
      g1.groupFileId_ = none ∧ g1.needToWriteFileHeader_ = false ∧
      (∀ k, writeGroupFileHeaderTimes fatal k g1 = .ok g1) ∧
      (∀ (ops : List Op) (g2 : GroupMonitorCore), (∀ op ∈ ops, op.attaches = false) →
        runOps fatal ops g1 = .ok g2 → writeGroupFileHeader fatal g2 = .ok g2) := by
  obtain ⟨hidle, hnone, _⟩ := constructor_ok mem snn monitorId grpId g hc
  refine ⟨{ g with needToWriteFileHeader_ := false }, ?_, rfl, hnone, rfl, ?_, ?_⟩
  · simp [setGroupFileId, isRecording, hidle, hnone]
  · intro k
    exact writeGroupFileHeaderTimes_noop fatal k _ rfl
  · intro ops g2 hops hrun
    exact writeGroupFileHeader_noop fatal g2 (runOps_flag fatal ops _ g2 hops hrun rfl)

/-- Witness of C7, on the recorder `fresh`. -/
theorem setGroupFileId_null_witness :
    ∃ g1, setGroupFileId true none fresh = .ok g1 ∧
      g1 = { fresh with needToWriteFileHeader_ := false } ∧
      g1.groupFileId_ = none ∧ g1.needToWriteFileHeader_ = false ∧
      (∀ k, writeGroupFileHeaderTimes true k g1 = .ok g1) ∧
      (∀ (ops : List Op) (g2 : GroupMonitorCore), (∀ op ∈ ops, op.attaches = false) →
        runOps true ops g1 = .ok g2 → writeGroupFileHeader true g2 = .ok g2) :=
  setGroupFileId_null true rawStorage (engineAt 0 0 5 ⟨5, 1, 1⟩) 0 0 fresh rfl

/-- C8. Header written exactly once. On an idle recorder (with no stream
attached yet, if the error statement is fatal), `setGroupFileId` with a stream
that takes at least five more objects succeeds; the stream then holds what it
held before followed by exactly the five header objects, so one header if it
was empty; `needToWriteFileHeader_` is false; and any number of further
`writeGroupFileHeader()` calls succeed and return the very same state. -/
theorem header_written_once (fatal : Bool) (g : GroupMonitorCore) (f : FILE)
    (hidle : g.recordSet_ = false) (hfirst : fatal = true → g.groupFileId_ = none)
    (hroom : 5 ≤ f.room) :
    ∃ g1, setGroupFileId fatal (some f) g = .ok g1 ∧
      g1.groupFileId_ =
        some { f with room := f.room - 5, written := f.written ++ headerItems g } ∧
      (f.written = [] → ∃ f1, g1.groupFileId_ = some f1 ∧ f1.written = headerItems g) ∧
      g1.needToWriteFileHeader_ = false ∧
      ∀ k, writeGroupFileHeaderTimes fatal k g1 = .ok g1 := by
  have key : ∀ g0 : GroupMonitorCore, headerItems g0 = headerItems g →
      ∃ g1, writeGroupFileHeader fatal
          { g0 with groupFileId_ := some f, needToWriteFileHeader_ := true } = .ok g1 ∧
        g1.groupFileId_ =
          some { f with room := f.room - 5, written := f.written ++ headerItems g } ∧
        g1.needToWriteFileHeader_ = false := by
    intro g0 h0
    rw [writeGroupFileHeader_ok fatal _ f rfl rfl hroom]
    exact ⟨_, rfl, by rw [← h0]; rfl, rfl⟩
  have hrun : ∃ g1, setGroupFileId fatal (some f) g = .ok g1 ∧
      g1.groupFileId_ =
        some { f with room := f.room - 5, written := f.written ++ headerItems g } ∧
      g1.needToWriteFileHeader_ = false := by
    cases hs : g.groupFileId_.isSome
    · obtain ⟨g1, h1, h2, h3⟩ := key g rfl
      exact ⟨g1, by simpa [setGroupFileId, isRecording, hidle, hs] using h1, h2, h3⟩
    · cases fatal
      · obtain ⟨g1, h1, h2, h3⟩ := key
          { g with snn_ := { g.snn_ with errorLog := g.snn_.errorLog ++
              ["GroupMonitorCore: setGroupFileId() has already been called."] } } rfl
        exact ⟨g1, by simpa [setGroupFileId, isRecording, hidle, hs, KERNEL_ERROR] using h1,
          h2, h3⟩
      · simp [hfirst rfl] at hs
  obtain ⟨g1, h1, h2, h3⟩ := hrun
  refine ⟨g1, h1, h2, ?_, h3, fun k => writeGroupFileHeaderTimes_noop fatal k g1 h3⟩
  intro hempty
  exact ⟨_, h2, by simp [hempty]⟩

/-- Witness of C8: `sinkA` attached to the recorder `fresh`. -/
theorem header_written_once_witness :
    ∃ g1, setGroupFileId true (some sinkA) fresh = .ok g1 ∧
      g1.groupFileId_ =
        some { sinkA with room := sinkA.room - 5, written := sinkA.written ++ headerItems fresh } ∧
      (sinkA.written = [] → ∃ f1, g1.groupFileId_ = some f1 ∧ f1.written = headerItems fresh) ∧
      g1.needToWriteFileHeader_ = false ∧
      ∀ k, writeGroupFileHeaderTimes true k g1 = .ok g1 :=
  header_written_once true fresh sinkA rfl (fun _ => rfl) (by decide)

theorem lit_0_2f_nearest : |lit_0_2f.toRat - 1 / 5| ≤ 1 / 2 ^ 27 := by
  have h : lit_0_2f.toRat = 13421773 / 2 ^ 26 := by
    simp only [CFloat.toRat, lit_0_2f]
    norm_num
  rw [h, abs_le]
  constructor <;> norm_num

/-- C9. Header layout. The constructor sets the signature to 206661989 and the
version to `0.2f`; and on a recorder that holds these constants, has
`needToWriteFileHeader_` set and a stream attached that takes five more
objects, `writeGroupFileHeader()` succeeds and adds to the stream exactly five
objects of 4 bytes each (20 bytes), in this order: the signature 206661989, the
version `0.2f`, then x, y and z of the grid the engine reports for the group;
it changes nothing else but to clear the flag. -/
theorem header_layout :
    (∀ (mem : GroupMonitorCore) (snn : CpuSNN) (monitorId grpId : Int) (g : GroupMonitorCore),
      GroupMonitorCore.GroupMonitorCore mem snn monitorId grpId = .ok g →
        g.groupFileSignature_ = 206661989 ∧ g.groupFileVersion_ = lit_0_2f) ∧
    (∀ (fatal : Bool) (g : GroupMonitorCore) (f : FILE),
      g.groupFileSignature_ = 206661989 → g.groupFileVersion_ = lit_0_2f →
      g.needToWriteFileHeader_ = true → g.groupFileId_ = some f → 5 ≤ f.room →
      ∃ g1 f1, writeGroupFileHeader fatal g = .ok g1 ∧
        g1 = { g with groupFileId_ := some f1, needToWriteFileHeader_ := false } ∧
        f1.fd = f.fd ∧
        f1.written = f.written ++
          [ Item.int 206661989, Item.float lit_0_2f,
            Item.int (g.snn_.groupGrid3D g.grpId_).x,
            Item.int (g.snn_.groupGrid3D g.grpId_).y,
            Item.int (g.snn_.groupGrid3D g.grpId_).z ] ∧
        (∀ i ∈ headerItems g, i.size = 4) ∧
        f1.bytes = f.bytes + 20) := by
  constructor
  · intro mem snn monitorId grpId g hc
    obtain ⟨_, _, _, hsig, hver, _⟩ := constructor_ok mem snn monitorId grpId g hc
    exact ⟨hsig, hver⟩
  · intro fatal g f hsig hver hflag hf hroom
    refine ⟨_, { f with room := f.room - 5, written := f.written ++ headerItems g },
      writeGroupFileHeader_ok fatal g f hflag hf hroom, rfl, rfl, ?_, ?_, ?_⟩
    · simp [headerItems, hsig, hver]
    · intro i hi
      simp only [headerItems, List.mem_cons, List.mem_singleton, List.not_mem_nil,
        or_false] at hi
      rcases hi with rfl | rfl | rfl | rfl | rfl <;> rfl
    · simp [FILE.bytes, headerItems, Item.size, sizeofInt, sizeofFloat]

/-- Witness of C9: the header of a group on a 5 x 1 x 1 grid. -/
theorem header_layout_witness :
    (fresh.groupFileSignature_ = 206661989 ∧ fresh.groupFileVersion_ = lit_0_2f) ∧
    ∃ g1 f1, writeGroupFileHeader true freshWithSinkA = .ok g1 ∧
      g1 = { freshWithSinkA with groupFileId_ := some f1, needToWriteFileHeader_ := false } ∧
      f1.fd = sinkA.fd ∧
      f1.written = sinkA.written ++
        [ Item.int 206661989, Item.float lit_0_2f,
          Item.int (freshWithSinkA.snn_.groupGrid3D freshWithSinkA.grpId_).x,
          Item.int (freshWithSinkA.snn_.groupGrid3D freshWithSinkA.grpId_).y,
          Item.int (freshWithSinkA.snn_.groupGrid3D freshWithSinkA.grpId_).z ] ∧
      (∀ i ∈ headerItems freshWithSinkA, i.size = 4) ∧
      f1.bytes = sinkA.bytes + 20 :=
  ⟨header_layout.1 rawStorage (engineAt 0 0 5 ⟨5, 1, 1⟩) 0 0 fresh rfl,
   header_layout.2 true freshWithSinkA sinkA rfl rfl rfl rfl (by decide)⟩

theorem writeField_inv (fatal : Bool) (item : Item) (message : String)
    (g g1 : GroupMonitorCore) (h : writeField fatal item message g = .ok g1) :
    g1.recordSet_ = g.recordSet_ ∧ g1.groupFileId_.isSome = true ∧
      g1.needToWriteFileHeader_ = g.needToWriteFileHeader_ := by
  unfold writeField at h
  cases hf : g.groupFileId_ with
  | none => simp [hf] at h
  | some f =>
    simp only [hf] at h
    split at h
    · cases fatal
      · simp [KERNEL_ERROR] at h
        subst h
        simp
      · simp [KERNEL_ERROR] at h
    · simp at h
      subst h
      simp

theorem writeGroupFileHeader_inv (fatal : Bool) (g g1 : GroupMonitorCore)
    (h : writeGroupFileHeader fatal g = .ok g1) :
    g1.recordSet_ = g.recordSet_ ∧ g1.needToWriteFileHeader_ = false ∧
      (g.groupFileId_.isSome = true → g1.groupFileId_.isSome = true) := by
  unfold writeGroupFileHeader at h
  split at h
  · simp at h
    subst h
    simp_all
  · split at h
    · simp at h
    · rename_i a ha
      split at h
      · simp at h
      · rename_i b hb
        dsimp only at h
        split at h
        · simp at h
        · rename_i c hc
          split at h
          · simp at h
          · rename_i d hd
            split at h
            · simp at h
            · rename_i e he
              simp at h
              subst h
              have h1 := writeField_inv _ _ _ _ _ ha
              have h2 := writeField_inv _ _ _ _ _ hb
              have h3 := writeField_inv _ _ _ _ _ hc
              have h4 := writeField_inv _ _ _ _ _ hd
              have h5 := writeField_inv _ _ _ _ _ he
              refine ⟨?_, rfl, fun _ => h5.2.1⟩
              simp only [h5.1, h4.1, h3.1, h2.1, h1.1]

theorem setGroupFileId_inv (fatal : Bool) (f : FILE) (g g1 : GroupMonitorCore)
    (h : setGroupFileId fatal (some f) g = .ok g1) :
    g1.recordSet_ = false ∧ g1.groupFileId_.isSome = true ∧
      g1.needToWriteFileHeader_ = false := by
  unfold setGroupFileId at h
  split at h
  · simp at h
  · rename_i hrec
    split at h
    · simp at h
    · rename_i g0 hg0
      simp only [Option.isNone_some, Bool.false_eq_true, if_false] at h
      obtain ⟨h1, h2, h3⟩ := writeGroupFileHeader_inv _ _ _ h
      have hrec0 : g0.recordSet_ = false := by
        split at hg0
        · cases fatal
          · simp [KERNEL_ERROR] at hg0
            subst hg0
            simpa [isRecording] using hrec
          · simp [KERNEL_ERROR] at hg0
        · simp at hg0
          subst hg0
          simpa [isRecording] using hrec
      exact ⟨by rw [h1]; exact hrec0, h3 rfl, h2⟩

/-- What the second call does if the error statement only prints: it goes on,
the new stream takes the place of the attached one and receives a header. -/
theorem setGroupFileId_twice_logOnly :
    ∃ g2, setGroupFileId false (some sinkB)
        (match setGroupFileId false (some sinkA) fresh with
          | .ok g => g
          | .error _ => fresh) = .ok g2 ∧
      g2.groupFileId_ = some
        { fd := 4, room := 95,
          written := [.int 206661989, .float lit_0_2f, .int 5, .int 1, .int 1] } ∧
      g2.snn_.errorLog = ["GroupMonitorCore: setGroupFileId() has already been called."] :=
  ⟨_, rfl, rfl, rfl⟩

/-! ## What each call does to the members -/

theorem startRecording_ok (g : GroupMonitorCore) (hidle : g.recordSet_ = false) :
    ∃ g1, startRecording g = .ok g1 := by
  cases hp : g.persistentData_ <;>
    simp [startRecording, clear, isRecording, hidle, hp]

theorem startRecording_inv (g g1 : GroupMonitorCore) (h : startRecording g = .ok g1) :
    g.recordSet_ = false ∧ g1.recordSet_ = true ∧
    g1.persistentData_ = g.persistentData_ ∧
    g1.startTimeLast_ = (g.snn_.currentTime : Int) ∧
    g1.startTime_ = (if g.persistentData_ then
        (if g.startTime_ < 0 then (g.snn_.currentTime : Int) else g.startTime_)
      else (g.snn_.currentTime : Int)) ∧
    g1.accumTime_ = (if g.persistentData_ then
        (if g.totalTime_ > 0 then g.totalTime_ else 0) else 0) ∧
    g1.timeVector_ = (if g.persistentData_ then g.timeVector_ else []) ∧
    g1.dataVector_ = (if g.persistentData_ then g.dataVector_ else []) ∧
    g1.groupFileId_ = g.groupFileId_ ∧
    g1.snn_.requests = g.snn_.requests ++ [.updateGroupMonitor g.grpId_ false] ∧
    g1.snn_.currentTime = g.snn_.currentTime ∧
    g1.grpId_ = g.grpId_ := by
  unfold startRecording at h
  split at h
  · simp at h
  · rename_i hrec
    have hidle : g.recordSet_ = false := by simpa [isRecording] using hrec
    cases hp : g.persistentData_
    · simp [hp, clear, hrec] at h
      subst h
      simp [startRecordingTimes, callUpdateGroupMonitor, hidle, currentTime_requests]
    · simp [hp] at h
      subst h
      simp [startRecordingTimes, callUpdateGroupMonitor, hp, hidle, currentTime_requests]

theorem stopRecording_inv (g g1 : GroupMonitorCore) (h : stopRecording g = .ok g1) :
    g.recordSet_ = true ∧ g1.recordSet_ = false ∧
    g1.persistentData_ = g.persistentData_ ∧
    g1.startTime_ = g.startTime_ ∧ g1.startTimeLast_ = g.startTimeLast_ ∧
    g1.accumTime_ = g.accumTime_ ∧
    g1.stopTime_ = (g.snn_.currentTime : Int) ∧
    g1.totalTime_ = (g.snn_.currentTime : Int) - g.startTimeLast_ + g.accumTime_ ∧
    0 ≤ g1.totalTime_ ∧
    g1.timeVector_ = g.timeVector_ ∧ g1.dataVector_ = g.dataVector_ ∧
    g1.groupFileId_ = g.groupFileId_ ∧
    g1.snn_.requests = g.snn_.requests ++ [.updateSpikeMonitor g.grpId_ true] ∧
    g1.snn_.currentTime = g.snn_.currentTime ∧
    g1.grpId_ = g.grpId_ := by
  simp only [stopRecording] at h
  split_ifs at h with h1 h2 h3
  simp only [Except.ok.injEq] at h
  subst h
  have hrec : g.recordSet_ = true := by simpa [isRecording] using h1
  simp [callUpdateSpikeMonitor, hrec, currentTime_requests] at h3 ⊢
  exact h3

theorem stopRecording_ok (g : GroupMonitorCore) (hrec : g.recordSet_ = true)
    (h1 : 0 ≤ g.startTime_) (h2 : 0 ≤ g.startTimeLast_) (h3 : 0 ≤ g.accumTime_)
    (hclock : g.startTimeLast_ ≤ (g.snn_.currentTime : Int)) :
    ∃ g1, stopRecording g = .ok g1 := by
  have ha : (-1 : Int) < g.startTime_ := by omega
  have hb : (-1 : Int) < g.startTimeLast_ := by omega
  have hc : (-1 : Int) < g.accumTime_ := by omega
  have hd : 0 ≤ (g.snn_.currentTime : Int) - g.startTimeLast_ + g.accumTime_ := by omega
  simp [stopRecording, isRecording, hrec, ha, hb, hc, callUpdateSpikeMonitor,
    currentTime_requests, hd]

theorem clear_inv (g g1 : GroupMonitorCore) (h : clear g = .ok g1) :
    g.recordSet_ = false ∧
    g1 = { g with recordSet_ := false, startTime_ := -1, startTimeLast_ := -1,
                  stopTime_ := -1, accumTime_ := 0, totalTime_ := -1,
                  timeVector_ := [], dataVector_ := [] } := by
  simp only [clear] at h
  split_ifs at h with h1
  simp only [Except.ok.injEq] at h
  exact ⟨by simpa [isRecording] using h1, h.symm⟩

theorem print_inv (g g1 : GroupMonitorCore) (h : print g = .ok g1) :
    g.recordSet_ = false ∧ g1 = g := by
  simp only [print] at h
  split_ifs at h with h1
  simp only [Except.ok.injEq] at h
  exact ⟨by simpa [isRecording] using h1, h.symm⟩

theorem pushData_inv (time : Nat) (data : CFloat) (g g1 : GroupMonitorCore)
    (h : pushData time data g = .ok g1) :
    g.recordSet_ = true ∧
    g1 = { g with timeVector_ := g.timeVector_ ++ [time]
                  dataVector_ := g.dataVector_ ++ [data] } := by
  simp only [pushData] at h
  split_ifs at h with h1
  simp only [Except.ok.injEq] at h
  exact ⟨by simpa [isRecording] using h1, h.symm⟩

theorem sameRecording_refl (g : GroupMonitorCore) : sameRecording g g := by
  simp [sameRecording]

theorem sameRecording_trans (a b c : GroupMonitorCore) (h1 : sameRecording a b)
    (h2 : sameRecording b c) : sameRecording a c := by
  obtain ⟨a1, a2, a3, a4, a5, a6, a7, a8, a9, a10⟩ := h1
  obtain ⟨b1, b2, b3, b4, b5, b6, b7, b8, b9, b10⟩ := h2
  exact ⟨b1.trans a1, b2.trans a2, b3.trans a3, b4.trans a4, b5.trans a5, b6.trans a6,
    b7.trans a7, b8.trans a8, b9.trans a9, b10.trans a10⟩

theorem KERNEL_ERROR_frame (fatal : Bool) (message : String) (g g1 : GroupMonitorCore)
    (h : KERNEL_ERROR fatal message g = .ok g1) :
    sameRecording g g1 ∧ g1.groupFileId_ = g.groupFileId_ ∧
      g1.needToWriteFileHeader_ = g.needToWriteFileHeader_ := by
  cases fatal
  · simp [KERNEL_ERROR] at h
    subst h
    simp [sameRecording, CpuSNN.currentTime]
  · simp [KERNEL_ERROR] at h

theorem writeField_frame (fatal : Bool) (item : Item) (message : String)
    (g g1 : GroupMonitorCore) (h : writeField fatal item message g = .ok g1) :
    sameRecording g g1 := by
  unfold writeField at h
  cases hf : g.groupFileId_ with
  | none => simp [hf] at h
  | some f =>
    simp only [hf] at h
    split at h
    · exact sameRecording_trans _ _ _ (by simp [sameRecording])
        (KERNEL_ERROR_frame _ _ _ _ h).1
    · simp at h
      subst h
      simp [sameRecording]

theorem writeGroupFileHeader_frame (fatal : Bool) (g g1 : GroupMonitorCore)
    (h : writeGroupFileHeader fatal g = .ok g1) : sameRecording g g1 := by
  unfold writeGroupFileHeader at h
  split at h
  · simp at h
    subst h
    exact sameRecording_refl g
  · split at h
    · simp at h
    · rename_i a ha
      split at h
      · simp at h
      · rename_i b hb
        dsimp only at h
        split at h
        · simp at h
        · rename_i c hc
          split at h
          · simp at h
          · rename_i d hd
            split at h
            · simp at h
            · rename_i e he
              simp at h
              subst h
              have h1 := writeField_frame _ _ _ _ _ ha
              have h2 := writeField_frame _ _ _ _ _ hb
              have h3 := writeField_frame _ _ _ _ _ hc
              have h4 := writeField_frame _ _ _ _ _ hd
              have h5 := writeField_frame _ _ _ _ _ he
              have h6 : sameRecording e { e with needToWriteFileHeader_ := false } := by
                simp [sameRecording]
              exact sameRecording_trans _ _ _ h1 (sameRecording_trans _ _ _ h2
                (sameRecording_trans _ _ _ h3 (sameRecording_trans _ _ _ h4
                  (sameRecording_trans _ _ _ h5 h6))))

theorem setGroupFileId_frame (fatal : Bool) (f : Option FILE) (g g1 : GroupMonitorCore)
    (h : setGroupFileId fatal f g = .ok g1) :
    g.recordSet_ = false ∧ sameRecording g g1 ∧ g1.needToWriteFileHeader_ = false ∧
      g1.groupFileId_.isSome = f.isSome := by
  unfold setGroupFileId at h
  split at h
  · simp at h
  · rename_i hrec
    have hidle : g.recordSet_ = false := by simpa [isRecording] using hrec
    split at h
    · simp at h
    · rename_i g0 hg0
      have h0 : sameRecording g g0 := by
        split at hg0
        · exact (KERNEL_ERROR_frame _ _ _ _ hg0).1
        · simp at hg0
          subst hg0
          exact sameRecording_refl g
      cases f with
      | none =>
        simp at h
        subst h
        exact ⟨hidle, sameRecording_trans _ _ _ h0 (by simp [sameRecording]), rfl, rfl⟩
      | some f1 =>
        simp only [Option.isNone_some, Bool.false_eq_true, if_false] at h
        have h1 := writeGroupFileHeader_frame _ _ _ h
        obtain ⟨_, h2, h3⟩ := writeGroupFileHeader_inv _ _ _ h
        refine ⟨hidle, sameRecording_trans _ _ _ h0
          (sameRecording_trans _ _ _ (by simp [sameRecording]) h1), h2, ?_⟩
        simpa using h3 rfl

/-! ## State transitions -/

theorem run_recordSet (fatal : Bool) (op : Op) (g g1 : GroupMonitorCore)
    (h : op.run fatal g = .ok g1) :
    (op = .startRecording → g.recordSet_ = false ∧ g1.recordSet_ = true) ∧
    (op = .stopRecording → g.recordSet_ = true ∧ g1.recordSet_ = false) ∧
    (op ≠ .startRecording → op ≠ .stopRecording → g1.recordSet_ = g.recordSet_) := by
  cases op with
  | clear =>
    obtain ⟨h1, h2⟩ := clear_inv g g1 h
    subst h2
    simp [h1]
  | print =>
    obtain ⟨_, h2⟩ := print_inv g g1 h
    subst h2
    simp
  | pushData time data =>
    obtain ⟨_, h2⟩ := pushData_inv time data g g1 h
    subst h2
    simp
  | startRecording =>
    obtain ⟨h1, h2, _⟩ := startRecording_inv g g1 h
    simp [h1, h2]
  | stopRecording =>
    obtain ⟨h1, h2, _⟩ := stopRecording_inv g g1 h
    simp [h1, h2]
  | setGroupFileId f =>
    obtain ⟨_, h2, _⟩ := setGroupFileId_frame fatal f g g1 h
    simp [h2.1]
  | simulate snn =>
    simp only [Op.run, atEngine, Except.ok.injEq] at h
    subst h
    simp
  | setPersistentData b =>
    simp only [Op.run, setPersistentData, Except.ok.injEq] at h
    subst h
    simp

theorem runOps_alternates (fatal : Bool) (ops : List Op) (g g1 : GroupMonitorCore)
    (h : runOps fatal ops g = .ok g1) : alternates g.recordSet_ ops = true := by
  induction ops generalizing g with
  | nil => rfl
  | cons op rest ih =>
    simp only [runOps] at h
    split at h
    · simp at h
    · rename_i g0 h0
      have hrest := ih g0 h
      obtain ⟨hstart, hstop, hother⟩ := run_recordSet fatal op g g0 h0
      cases op with
      | startRecording =>
        obtain ⟨ha, hb⟩ := hstart rfl
        rw [hb] at hrest
        simp [alternates, ha, hrest]
      | stopRecording =>
        obtain ⟨ha, hb⟩ := hstop rfl
        rw [hb] at hrest
        simp [alternates, ha, hrest]
      | clear => rw [hother (by simp) (by simp)] at hrest; simpa [alternates] using hrest
      | print => rw [hother (by simp) (by simp)] at hrest; simpa [alternates] using hrest
      | pushData t d =>
        rw [hother (by simp) (by simp)] at hrest; simpa [alternates] using hrest
      | setGroupFileId f =>
        rw [hother (by simp) (by simp)] at hrest; simpa [alternates] using hrest
      | simulate snn =>
        rw [hother (by simp) (by simp)] at hrest; simpa [alternates] using hrest
      | setPersistentData b =>
        rw [hother (by simp) (by simp)] at hrest; simpa [alternates] using hrest

/-- C11. State transitions. `startRecording()` on a recording recorder stops on
its assertion, and on every idle one it succeeds and leaves the recorder
recording. `stopRecording()` on an idle recorder stops on its assertion, and
after a `startRecording()` on an idle recorder and any pushes, with a clock
that has not gone backwards, it succeeds and leaves the recorder idle. Hence
in every run of public calls and engine steps from a constructed recorder in
which every call succeeds, the start and stop calls strictly alternate,
beginning with a start. -/
theorem state_transitions :
    (∀ g : GroupMonitorCore, g.recordSet_ = true →
      startRecording g = .error (.assertion "!isRecording()")) ∧
    (∀ g : GroupMonitorCore, g.recordSet_ = false →
      ∃ g1, startRecording g = .ok g1 ∧ g1.recordSet_ = true) ∧
    (∀ g : GroupMonitorCore, g.recordSet_ = false →
      stopRecording g = .error (.assertion "isRecording()")) ∧
    (∀ (g : GroupMonitorCore) (s : Session), g.recordSet_ = false →
      s.start.currentTime ≤ s.stop.currentTime →
      ∃ g1 g2 g3, startRecording (atEngine s.start g) = .ok g1 ∧ g1.recordSet_ = true ∧
        pushAll s.pushes g1 = .ok g2 ∧ g2.recordSet_ = true ∧
        stopRecording (atEngine s.stop g2) = .ok g3 ∧ g3.recordSet_ = false) ∧
    (∀ (fatal : Bool) (mem : GroupMonitorCore) (snn : CpuSNN) (monitorId grpId : Int)
        (g0 g1 : GroupMonitorCore) (ops : List Op),
      GroupMonitorCore.GroupMonitorCore mem snn monitorId grpId = .ok g0 →
      runOps fatal ops g0 = .ok g1 → alternates false ops = true) := by
  refine ⟨?_, ?_, ?_, ?_, ?_⟩
  · intro g h
    simp [startRecording, isRecording, h]
  · intro g h
    obtain ⟨g1, h1⟩ := startRecording_ok g h
    exact ⟨g1, h1, (startRecording_inv g g1 h1).2.1⟩
  · intro g h
    simp [stopRecording, isRecording, h]
  · intro g s hidle hclock
    obtain ⟨g1, h1⟩ := startRecording_ok (atEngine s.start g) hidle
    have hrec1 := (startRecording_inv _ g1 h1).2.1
    have h2 := pushAll_recording s.pushes g1 hrec1
    obtain ⟨g3, hrun, hidle3, _⟩ := runSession_spec s g hidle hclock
    simp only [runSession, h1, h2] at hrun
    exact ⟨g1, _, g3, h1, hrec1, h2, hrec1, hrun, hidle3⟩
  · intro fatal mem snn monitorId grpId g0 g1 ops hc hrun
    have h := runOps_alternates fatal ops g0 g1 hrun
    rwa [(constructor_ok mem snn monitorId grpId g0 hc).1] at h

/-! ## The series -/

theorem zip_fst_snd (ps : List (Nat × CFloat)) :
    List.zip (ps.map Prod.fst) (ps.map Prod.snd) = ps := by
  induction ps with
  | nil => rfl
  | cons p ps ih => simp [ih]

theorem runSession_full (s : Session) (g : GroupMonitorCore)
    (hidle : g.recordSet_ = false)
    (hclock : s.start.currentTime ≤ s.stop.currentTime) :
    ∃ g1, runSession s g = .ok g1 ∧ g1.recordSet_ = false ∧
      g1.persistentData_ = g.persistentData_ ∧
      g1.startTime_ = (if g.persistentData_ then
          (if g.startTime_ < 0 then (s.start.currentTime : Int) else g.startTime_)
        else (s.start.currentTime : Int)) ∧
      g1.startTimeLast_ = (s.start.currentTime : Int) ∧
      g1.timeVector_ =
        (if g.persistentData_ then g.timeVector_ else []) ++ s.pushes.map Prod.fst ∧
      g1.dataVector_ =
        (if g.persistentData_ then g.dataVector_ else []) ++ s.pushes.map Prod.snd := by
  obtain ⟨g1, h1⟩ := startRecording_ok (atEngine s.start g) hidle
  obtain ⟨_, hrec1, hp1, hlast1, hst1, hacc1, htv1, hdv1, _, _, hclk1, _⟩ :=
    startRecording_inv _ g1 h1
  have h2 := pushAll_recording s.pushes g1 hrec1
  have hc : (s.start.currentTime : Int) ≤ s.stop.currentTime := by exact_mod_cast hclock
  have h0 : (0 : Int) ≤ s.start.currentTime := Int.natCast_nonneg _
  simp only [atEngine] at hp1 hlast1 hst1 hacc1 htv1 hdv1
  obtain ⟨g3, h3⟩ := stopRecording_ok
    (atEngine s.stop { g1 with
      timeVector_ := g1.timeVector_ ++ s.pushes.map Prod.fst
      dataVector_ := g1.dataVector_ ++ s.pushes.map Prod.snd })
    hrec1
    (by simp only [atEngine]; rw [hst1]; split_ifs <;> omega)
    (by simp only [atEngine]; rw [hlast1]; exact h0)
    (by simp only [atEngine]; rw [hacc1]; split_ifs <;> omega)
    (by simp only [atEngine]; rw [hlast1]; exact hc)
  obtain ⟨_, hidle3, hp3, hst3, hlast3, _, _, _, _, htv3, hdv3, _⟩ :=
    stopRecording_inv _ g3 h3
  simp only [atEngine] at hp3 hst3 hlast3 htv3 hdv3
  refine ⟨g3, ?_, hidle3, by rw [hp3, hp1], by rw [hst3, hst1], by rw [hlast3, hlast1],
    by rw [htv3, htv1], by rw [hdv3, hdv1]⟩
  simp only [runSession, h1, h2]
  exact h3

/-- C12. Non-persistent series content. From every idle recorder with
`persistentData_ = false`, whatever series it holds, a session (start, the
pushes of the list in order, stop, the clock not going backwards) runs to its
end and leaves as series exactly the pushed pairs in call order: the time
vector holds their times, the data vector their values, and nothing is left of
earlier sessions. -/
theorem nonpersistent_series (g : GroupMonitorCore) (s : Session)
    (hidle : g.recordSet_ = false) (hmode : g.persistentData_ = false)
    (hclock : s.start.currentTime ≤ s.stop.currentTime) :
    ∃ g1, runSession s g = .ok g1 ∧
      g1.timeVector_ = s.pushes.map Prod.fst ∧ g1.dataVector_ = s.pushes.map Prod.snd ∧
      series g1 = s.pushes := by
  obtain ⟨g1, hrun, _, _, _, _, htv, hdv⟩ := runSession_full s g hidle hclock
  simp only [hmode, Bool.false_eq_true, if_false, List.nil_append] at htv hdv
  exact ⟨g1, hrun, htv, hdv, by rw [series, htv, hdv, zip_fst_snd]⟩

/-- Witness of C12: on a recorder that still holds the pair of an earlier
session, the session with pushes (100, 0.5f) and (150, 0.7f) leaves exactly
these two pairs. -/
theorem nonpersistent_series_witness :
    ∃ g1, runSession session_100_200 usedTransient = .ok g1 ∧
      g1.timeVector_ = [100, 150] ∧ g1.dataVector_ = [lit_0_5f, lit_0_7f] ∧
      series g1 = [(100, lit_0_5f), (150, lit_0_7f)] :=
  nonpersistent_series usedTransient session_100_200 rfl rfl (by decide)

/-! ## Requests to the engine -/

/-- C13. Synchronisation ordering. With each request to the engine kept
together with the value `recordSet_` has when it is made: `startRecording()`
on an idle recorder succeeds, adds to the engine's requests exactly one
`updateGroupMonitor` for the group, made while `recordSet_` is false, and ends
with `recordSet_` true; `stopRecording()`, whenever it returns, has added
exactly one `updateSpikeMonitor` for the group, made while `recordSet_` is
true, and ends with `recordSet_` false; and it does return on a recording
recorder with non-negative start and accumulated times and a clock not before
`startTimeLast_`. -/
theorem sync_before_transition :
    (∀ g : GroupMonitorCore, g.recordSet_ = false →
      ∃ g1, startRecording g = .ok g1 ∧
        g1.snn_.requests = g.snn_.requests ++ [.updateGroupMonitor g.grpId_ false] ∧
        g1.recordSet_ = true) ∧
    (∀ g g1 : GroupMonitorCore, stopRecording g = .ok g1 →
      g.recordSet_ = true ∧
      g1.snn_.requests = g.snn_.requests ++ [.updateSpikeMonitor g.grpId_ true] ∧
      g1.recordSet_ = false) ∧
    (∀ g : GroupMonitorCore, g.recordSet_ = true → 0 ≤ g.startTime_ →
      0 ≤ g.startTimeLast_ → 0 ≤ g.accumTime_ →
      g.startTimeLast_ ≤ (g.snn_.currentTime : Int) →
      ∃ g1, stopRecording g = .ok g1 ∧
        g1.snn_.requests = g.snn_.requests ++ [.updateSpikeMonitor g.grpId_ true] ∧
        g1.recordSet_ = false) := by
  refine ⟨?_, ?_, ?_⟩
  · intro g hidle
    obtain ⟨g1, h1⟩ := startRecording_ok g hidle
    obtain ⟨_, hrec, _, _, _, _, _, _, _, hreq, _⟩ := startRecording_inv g g1 h1
    exact ⟨g1, h1, hreq, hrec⟩
  · intro g g1 h
    obtain ⟨hrec, hidle, _, _, _, _, _, _, _, _, _, _, hreq, _⟩ := stopRecording_inv g g1 h
    exact ⟨hrec, hreq, hidle⟩
  · intro g hrec h1 h2 h3 hclock
    obtain ⟨g1, h⟩ := stopRecording_ok g hrec h1 h2 h3 hclock
    obtain ⟨_, hidle, _, _, _, _, _, _, _, _, _, _, hreq, _⟩ := stopRecording_inv g g1 h
    exact ⟨g1, h, hreq, hidle⟩

/-- Witness of C13: the request of a start on the recorder `fresh` carries the
flag false, the request of a stop on the recorder `recordingOne` carries the
flag true. -/
theorem sync_before_transition_witness :
    (∃ g1, startRecording fresh = .ok g1 ∧
      g1.snn_.requests = fresh.snn_.requests ++ [.updateGroupMonitor fresh.grpId_ false] ∧
      g1.recordSet_ = true) ∧
    (∃ g1, stopRecording recordingOne = .ok g1 ∧
      g1.snn_.requests =
        recordingOne.snn_.requests ++ [.updateSpikeMonitor recordingOne.grpId_ true] ∧
      g1.recordSet_ = false) :=
  ⟨sync_before_transition.1 fresh rfl,
   sync_before_transition.2.2 recordingOne rfl (by decide) (by decide) (by decide)
     (by decide)⟩

/-! ## Persistent mode: start time and series -/

theorem runSessions_persistent_full (l : List Session) (g : GroupMonitorCore)
    (hidle : g.recordSet_ = false) (hmode : g.persistentData_ = true)
    (hclock : ∀ s ∈ l, s.start.currentTime ≤ s.stop.currentTime) :
    ∃ g1, runSessions l g = .ok g1 ∧ g1.recordSet_ = false ∧ g1.persistentData_ = true ∧
      (0 ≤ g.startTime_ → g1.startTime_ = g.startTime_) ∧
      (g.startTime_ < 0 → ∀ s0 rest, l = s0 :: rest →
        g1.startTime_ = (s0.start.currentTime : Int)) ∧
      g1.timeVector_ = g.timeVector_ ++ (allPushes l).map Prod.fst ∧
      g1.dataVector_ = g.dataVector_ ++ (allPushes l).map Prod.snd := by
  induction l generalizing g with
  | nil =>
    refine ⟨g, rfl, hidle, hmode, fun _ => rfl, ?_, by simp [allPushes], by simp [allPushes]⟩
    intro _ s0 rest h
    simp at h
  | cons s rest ih =>
    have hs : s.start.currentTime ≤ s.stop.currentTime := hclock s (by simp)
    obtain ⟨g1, hrun, hidle1, hmode1, hst1, _, htv1, hdv1⟩ := runSession_full s g hidle hs
    rw [hmode] at hmode1
    simp only [hmode, if_true] at hst1 htv1 hdv1
    obtain ⟨g2, hrest, hidle2, hmode2, hkeep, _, htv2, hdv2⟩ :=
      ih g1 hidle1 hmode1 (fun t ht => hclock t (by simp [ht]))
    have h0 : (0 : Int) ≤ s.start.currentTime := Int.natCast_nonneg _
    have hnn : 0 ≤ g1.startTime_ := by
      rw [hst1]
      split_ifs <;> omega
    refine ⟨g2, ?_, hidle2, hmode2, ?_, ?_, ?_, ?_⟩
    · simp [runSessions, hrun, hrest]
    · intro h
      rw [hkeep hnn, hst1, if_neg (by omega)]
    · intro h s0 rest0 heq
      simp only [List.cons.injEq] at heq
      rw [hkeep hnn, hst1, if_pos h, heq.1]
    · rw [htv2, htv1]
      simp [allPushes]
    · rw [hdv2, hdv1]
      simp [allPushes]

/-- C14. Persistent start-time bookkeeping. In persistent mode
`startRecording()` on an idle recorder succeeds and sets `startTimeLast_` to
the clock reading `now`; sets `startTime_` to `now` if it was negative (the
sentinel) and leaves it as it was otherwise; and sets `accumTime_` to the old
`totalTime_` if that is a total (not negative) and to 0 if it is negative (the
sentinel). Consequently a non-empty list of persistent sessions, run from an
idle recorder whose `startTime_` is still negative, leaves `startTime_` equal
to the clock reading of the first start. -/
theorem persistent_start_bookkeeping :
    (∀ g : GroupMonitorCore, g.recordSet_ = false → g.persistentData_ = true →
      ∃ g1, startRecording g = .ok g1 ∧
        g1.startTimeLast_ = (g.snn_.currentTime : Int) ∧
        (g.startTime_ < 0 → g1.startTime_ = (g.snn_.currentTime : Int)) ∧
        (0 ≤ g.startTime_ → g1.startTime_ = g.startTime_) ∧
        (0 ≤ g.totalTime_ → g1.accumTime_ = g.totalTime_) ∧
        (g.totalTime_ < 0 → g1.accumTime_ = 0)) ∧
    (∀ (g : GroupMonitorCore) (s0 : Session) (rest : List Session),
      g.recordSet_ = false → g.persistentData_ = true → g.startTime_ < 0 →
      (∀ s ∈ s0 :: rest, s.start.currentTime ≤ s.stop.currentTime) →
      ∃ g1, runSessions (s0 :: rest) g = .ok g1 ∧
        g1.startTime_ = (s0.start.currentTime : Int)) := by
  constructor
  · intro g hidle hmode
    obtain ⟨g1, h1⟩ := startRecording_ok g hidle
    obtain ⟨_, _, _, hlast, hst, hacc, _⟩ := startRecording_inv g g1 h1
    simp only [hmode, if_true] at hst hacc
    refine ⟨g1, h1, hlast, ?_, ?_, ?_, ?_⟩
    · intro h
      rw [hst, if_pos h]
    · intro h
      rw [hst, if_neg (by omega)]
    · intro h
      rw [hacc]
      split_ifs <;> omega
    · intro h
      rw [hacc, if_neg (by omega)]
  · intro g s0 rest hidle hmode hneg hclock
    obtain ⟨g1, hrun, _, _, _, hfirst, _⟩ :=
      runSessions_persistent_full (s0 :: rest) g hidle hmode hclock
    exact ⟨g1, hrun, hfirst hneg s0 rest rfl⟩

/-- Witness of C14: the first persistent start on the recorder
`freshPersistent`, and its two sessions [0,50] and [200,230], after which
`startTime_` is 0, the start of the first. -/
theorem persistent_start_bookkeeping_witness :
    (∃ g1, startRecording freshPersistent = .ok g1 ∧
      g1.startTimeLast_ = (freshPersistent.snn_.currentTime : Int) ∧
      (freshPersistent.startTime_ < 0 →
        g1.startTime_ = (freshPersistent.snn_.currentTime : Int)) ∧
      (0 ≤ freshPersistent.startTime_ → g1.startTime_ = freshPersistent.startTime_) ∧
      (0 ≤ freshPersistent.totalTime_ → g1.accumTime_ = freshPersistent.totalTime_) ∧
      (freshPersistent.totalTime_ < 0 → g1.accumTime_ = 0)) ∧
    (∃ g1, runSessions [session_0_50, session_200_230] freshPersistent = .ok g1 ∧
      g1.startTime_ = 0) :=
  ⟨persistent_start_bookkeeping.1 freshPersistent rfl rfl,
   persistent_start_bookkeeping.2 freshPersistent session_0_50 [session_200_230] rfl rfl
     (by decide) (by intro s hs; simp at hs; rcases hs with rfl | rfl <;> decide)⟩

/-- C17. Persistent mode keeps recorded data across sessions. In persistent
mode `startRecording()` on an idle recorder succeeds and leaves both vectors
as they were; `stopRecording()`, whenever it returns, leaves both vectors as
they were; so any list of persistent sessions (the clock not going backwards
within a session) run from an idle recorder leaves each vector as it was
followed by what was pushed in all the sessions, in call order, and the series
is the old series followed by all the pushed pairs. -/
theorem persistent_series_kept :
    (∀ g : GroupMonitorCore, g.recordSet_ = false → g.persistentData_ = true →
      ∃ g1, startRecording g = .ok g1 ∧
        g1.timeVector_ = g.timeVector_ ∧ g1.dataVector_ = g.dataVector_ ∧
        series g1 = series g) ∧
    (∀ g g1 : GroupMonitorCore, stopRecording g = .ok g1 →
      g1.timeVector_ = g.timeVector_ ∧ g1.dataVector_ = g.dataVector_ ∧
      series g1 = series g) ∧
    (∀ (g : GroupMonitorCore) (l : List Session),
      g.recordSet_ = false → g.persistentData_ = true →
      (∀ s ∈ l, s.start.currentTime ≤ s.stop.currentTime) →
      ∃ g1, runSessions l g = .ok g1 ∧
        g1.timeVector_ = g.timeVector_ ++ (allPushes l).map Prod.fst ∧
        g1.dataVector_ = g.dataVector_ ++ (allPushes l).map Prod.snd ∧
        (g.timeVector_.length = g.dataVector_.length →
          series g1 = series g ++ allPushes l)) := by
  refine ⟨?_, ?_, ?_⟩
  · intro g hidle hmode
    obtain ⟨g1, h1⟩ := startRecording_ok g hidle
    obtain ⟨_, _, _, _, _, _, htv, hdv, _⟩ := startRecording_inv g g1 h1
    simp only [hmode, if_true] at htv hdv
    exact ⟨g1, h1, htv, hdv, by rw [series, htv, hdv, series]⟩
  · intro g g1 h
    obtain ⟨_, _, _, _, _, _, _, _, _, htv, hdv, _⟩ := stopRecording_inv g g1 h
    exact ⟨htv, hdv, by rw [series, htv, hdv, series]⟩
  · intro g l hidle hmode hclock
    obtain ⟨g1, hrun, _, _, _, _, htv, hdv⟩ :=
      runSessions_persistent_full l g hidle hmode hclock
    refine ⟨g1, hrun, htv, hdv, ?_⟩
    intro hlen
    rw [series, htv, hdv, List.zip_append hlen, zip_fst_snd, series]

/-! ## Invariants of the states reached from construction -/

theorem runOps_cons (fatal : Bool) (op : Op) (rest : List Op) (g g1 : GroupMonitorCore)
    (h : runOps fatal (op :: rest) g = .ok g1) :
    ∃ g0, op.run fatal g = .ok g0 ∧ runOps fatal rest g0 = .ok g1 := by
  simp only [runOps] at h
  split at h
  · simp at h
  · rename_i g0 h0
    exact ⟨g0, h0, h⟩

theorem runOps_active (fatal : Bool) (ops : List Op) (g g1 : GroupMonitorCore)
    (last : Option Nat) (hrun : runOps fatal ops g = .ok g1)
    (hinv : g.recordSet_ = true → 0 ≤ g.startTime_ ∧ 0 ≤ g.accumTime_ ∧
      ∃ t : Nat, last = some t ∧ g.startTimeLast_ = (t : Int)) :
    g1.recordSet_ = true → 0 ≤ g1.startTime_ ∧ 0 ≤ g1.accumTime_ ∧
      ∃ t : Nat, lastStartReading fatal ops g last = some t ∧ g1.startTimeLast_ = (t : Int) := by
  induction ops generalizing g last with
  | nil =>
    simp only [runOps, Except.ok.injEq] at hrun
    subst hrun
    simpa [lastStartReading] using hinv
  | cons op rest ih =>
    obtain ⟨g0, h0, hrest⟩ := runOps_cons fatal op rest g g1 hrun
    simp only [lastStartReading, h0]
    apply ih g0 _ hrest
    cases op with
    | clear =>
      obtain ⟨_, h2⟩ := clear_inv g g0 h0
      subst h2
      simp
    | print =>
      obtain ⟨h1, h2⟩ := print_inv g g0 h0
      subst h2
      simp [h1]
    | pushData time data =>
      obtain ⟨_, h2⟩ := pushData_inv time data g g0 h0
      subst h2
      simpa using hinv
    | startRecording =>
      obtain ⟨_, _, _, hlast, hst, hacc, _⟩ := startRecording_inv g g0 h0
      intro _
      have hn : (0 : Int) ≤ g.snn_.currentTime := Int.natCast_nonneg _
      refine ⟨?_, ?_, g.snn_.currentTime, rfl, hlast⟩
      · rw [hst]
        split_ifs <;> omega
      · rw [hacc]
        split_ifs <;> omega
    | stopRecording =>
      obtain ⟨_, h2, _⟩ := stopRecording_inv g g0 h0
      simp [h2]
    | setGroupFileId f =>
      obtain ⟨h1, h2, _⟩ := setGroupFileId_frame fatal f g g0 h0
      simp [h2.1, h1]
    | simulate snn =>
      simp only [Op.run, atEngine, Except.ok.injEq] at h0
      subst h0
      simpa using hinv
    | setPersistentData b =>
      simp only [Op.run, setPersistentData, Except.ok.injEq] at h0
      subst h0
      simpa using hinv

/-- C16. The checks of `stopRecording()` cannot fail under a monotonic clock.
In every recording state reached from a constructed recorder by public calls,
changes of the mode and engine steps, `startTime_`, `startTimeLast_` and
`accumTime_` are not negative, and `startTimeLast_` is the clock value t read
by the latest `startRecording()`; and whenever the clock reads at least t,
`stopRecording()` succeeds, with `totalTime_ = stopTime_ - startTimeLast_ +
accumTime_` not negative. -/
theorem stop_checks_hold (fatal : Bool) (mem : GroupMonitorCore) (snn : CpuSNN)
    (monitorId grpId : Int) (g0 g : GroupMonitorCore) (ops : List Op)
    (hc : GroupMonitorCore.GroupMonitorCore mem snn monitorId grpId = .ok g0)
    (hrun : runOps fatal ops g0 = .ok g) (hrec : g.recordSet_ = true) :
    0 ≤ g.startTime_ ∧ 0 ≤ g.startTimeLast_ ∧ 0 ≤ g.accumTime_ ∧
    ∃ t : Nat, lastStartReading fatal ops g0 none = some t ∧ g.startTimeLast_ = (t : Int) ∧
      ∀ now : CpuSNN, t ≤ now.currentTime →
        ∃ g1, stopRecording (atEngine now g) = .ok g1 ∧
          g1.stopTime_ = (now.currentTime : Int) ∧
          g1.totalTime_ = g1.stopTime_ - g.startTimeLast_ + g.accumTime_ ∧
          0 ≤ g1.totalTime_ := by
  have hidle0 := (constructor_ok mem snn monitorId grpId g0 hc).1
  obtain ⟨h1, h3, t, ht, hlast⟩ :=
    runOps_active fatal ops g0 g none hrun (by simp [hidle0]) hrec
  have h2 : 0 ≤ g.startTimeLast_ := by
    rw [hlast]
    exact Int.natCast_nonneg _
  refine ⟨h1, h2, h3, t, ht, hlast, ?_⟩
  intro now hnow
  have hn : (t : Int) ≤ now.currentTime := by exact_mod_cast hnow
  obtain ⟨g1, hstop⟩ := stopRecording_ok (atEngine now g) hrec h1 h2 h3
    (by simp only [atEngine]; rw [hlast]; exact hn)
  obtain ⟨_, _, _, _, _, _, hstopT, htot, hnn, _⟩ := stopRecording_inv _ g1 hstop
  simp only [atEngine] at hstopT htot
  exact ⟨g1, hstop, hstopT, by rw [htot, hstopT], hnn⟩

theorem runOps_series (fatal : Bool) (ops : List Op) (g g1 : GroupMonitorCore)
    (pushed : List (Nat × CFloat)) (hrun : runOps fatal ops g = .ok g1)
    (hinv : g.timeVector_ = pushed.map Prod.fst ∧ g.dataVector_ = pushed.map Prod.snd) :
    g1.timeVector_ = (pushedSinceLastClear fatal ops g pushed).map Prod.fst ∧
    g1.dataVector_ = (pushedSinceLastClear fatal ops g pushed).map Prod.snd := by
  induction ops generalizing g pushed with
  | nil =>
    simp only [runOps, Except.ok.injEq] at hrun
    subst hrun
    simpa [pushedSinceLastClear] using hinv
  | cons op rest ih =>
    obtain ⟨g0, h0, hrest⟩ := runOps_cons fatal op rest g g1 hrun
    simp only [pushedSinceLastClear, h0]
    apply ih g0 _ hrest
    obtain ⟨htv, hdv⟩ := hinv
    cases op with
    | clear =>
      obtain ⟨_, h2⟩ := clear_inv g g0 h0
      subst h2
      simp
    | print =>
      obtain ⟨_, h2⟩ := print_inv g g0 h0
      subst h2
      exact ⟨htv, hdv⟩
    | pushData time data =>
      obtain ⟨_, h2⟩ := pushData_inv time data g g0 h0
      subst h2
      simp [htv, hdv]
    | startRecording =>
      obtain ⟨_, _, _, _, _, _, h7, h8, _⟩ := startRecording_inv g g0 h0
      cases hp : g.persistentData_
      · simp [h7, h8, hp]
      · simp [h7, h8, hp, htv, hdv]
    | stopRecording =>
      obtain ⟨_, _, _, _, _, _, _, _, _, h10, h11, _⟩ := stopRecording_inv g g0 h0
      exact ⟨h10.trans htv, h11.trans hdv⟩
    | setGroupFileId f =>
      obtain ⟨_, h2, _⟩ := setGroupFileId_frame fatal f g g0 h0
      obtain ⟨_, _, _, _, _, _, _, h8, h9, _⟩ := h2
      exact ⟨h8.trans htv, h9.trans hdv⟩
    | simulate snn =>
      simp only [Op.run, atEngine, Except.ok.injEq] at h0
      subst h0
      exact ⟨htv, hdv⟩
    | setPersistentData b =>
      simp only [Op.run, setPersistentData, Except.ok.injEq] at h0
      subst h0
      exact ⟨htv, hdv⟩

/-- C18. The series is a well-formed sequence of pairs. In every state reached
from a constructed recorder by public calls, changes of the mode and engine
steps, the two vectors have the same length, and they hold, entry by entry, the
times and the values of the successful `pushData` calls since the last call of
`clear()` (the one made by a non-persistent `startRecording()` included), in
call order; so the series is the list of these pairs. -/
theorem series_well_formed (fatal : Bool) (mem : GroupMonitorCore) (snn : CpuSNN)
    (monitorId grpId : Int) (g0 g : GroupMonitorCore) (ops : List Op)
    (hc : GroupMonitorCore.GroupMonitorCore mem snn monitorId grpId = .ok g0)
    (hrun : runOps fatal ops g0 = .ok g) :
    g.timeVector_.length = g.dataVector_.length ∧
    g.timeVector_ = (pushedSinceLastClear fatal ops g0 []).map Prod.fst ∧
    g.dataVector_ = (pushedSinceLastClear fatal ops g0 []).map Prod.snd ∧
    series g = pushedSinceLastClear fatal ops g0 [] ∧
    ∀ i : Nat, g.timeVector_[i]? = ((pushedSinceLastClear fatal ops g0 [])[i]?).map Prod.fst ∧
      g.dataVector_[i]? = ((pushedSinceLastClear fatal ops g0 [])[i]?).map Prod.snd := by
  have h0 : g0.timeVector_ = [] ∧ g0.dataVector_ = [] := by
    simp only [GroupMonitorCore.GroupMonitorCore, init, clear, isRecording] at hc
    split at hc
    · simp at hc
      subst hc
      simp
    · simp at hc
  obtain ⟨htv, hdv⟩ := runOps_series fatal ops g0 g [] hrun (by simpa using h0)
  refine ⟨by rw [htv, hdv]; simp, htv, hdv, by rw [series, htv, hdv, zip_fst_snd], ?_⟩
  intro i
  rw [htv, hdv]
  simp

/-! ## The header flag and the attached stream -/

theorem run_sink (fatal : Bool) (op : Op) (g g1 : GroupMonitorCore)
    (hop : op.isSetGroupFileId = false) (h : op.run fatal g = .ok g1) :
    g1.groupFileId_ = g.groupFileId_ ∧
      g1.needToWriteFileHeader_ = g.needToWriteFileHeader_ := by
  cases op with
  | clear =>
    obtain ⟨_, h2⟩ := clear_inv g g1 h
    subst h2
    simp
  | print =>
    obtain ⟨_, h2⟩ := print_inv g g1 h
    subst h2
    simp
  | pushData time data =>
    obtain ⟨_, h2⟩ := pushData_inv time data g g1 h
    subst h2
    simp
  | startRecording =>
    exact ⟨(startRecording_inv g g1 h).2.2.2.2.2.2.2.2.1, startRecording_flag g g1 h⟩
  | stopRecording =>
    exact ⟨(stopRecording_inv g g1 h).2.2.2.2.2.2.2.2.2.2.2.1, stopRecording_flag g g1 h⟩
  | setGroupFileId f => simp [Op.isSetGroupFileId] at hop
  | simulate snn =>
    simp only [Op.run, atEngine, Except.ok.injEq] at h
    subst h
    simp
  | setPersistentData b =>
    simp only [Op.run, setPersistentData, Except.ok.injEq] at h
    subst h
    simp

theorem runOps_header (fatal : Bool) (ops : List Op) (g g1 : GroupMonitorCore)
    (called : Bool) (hrun : runOps fatal ops g = .ok g1)
    (hinv : (called = true → g.needToWriteFileHeader_ = false) ∧
      (called = false → g.needToWriteFileHeader_ = true ∧ g.groupFileId_ = none)) :
    ((called || ops.any Op.isSetGroupFileId) = true → g1.needToWriteFileHeader_ = false) ∧
    ((called || ops.any Op.isSetGroupFileId) = false →
      g1.needToWriteFileHeader_ = true ∧ g1.groupFileId_ = none) := by
  induction ops generalizing g called with
  | nil =>
    simp only [runOps, Except.ok.injEq] at hrun
    subst hrun
    simpa using hinv
  | cons op rest ih =>
    obtain ⟨g0, h0, hrest⟩ := runOps_cons fatal op rest g g1 hrun
    have key := ih g0 (called || op.isSetGroupFileId) hrest (by
      cases hop : op.isSetGroupFileId
      · obtain ⟨hs, hf⟩ := run_sink fatal op g g0 hop h0
        simpa [hs, hf] using hinv
      · cases op with
        | setGroupFileId f =>
          obtain ⟨_, _, hflag, _⟩ := setGroupFileId_frame fatal f g g0 h0
          simp [hflag]
        | clear => simp [Op.isSetGroupFileId] at hop
        | print => simp [Op.isSetGroupFileId] at hop
        | pushData t d => simp [Op.isSetGroupFileId] at hop
        | startRecording => simp [Op.isSetGroupFileId] at hop
        | stopRecording => simp [Op.isSetGroupFileId] at hop
        | simulate snn => simp [Op.isSetGroupFileId] at hop
        | setPersistentData b => simp [Op.isSetGroupFileId] at hop)
    simpa [List.any_cons, Bool.or_assoc] using key

theorem writeField_no_nullStream (fatal : Bool) (item : Item) (message : String)
    (g : GroupMonitorCore) (hsome : g.groupFileId_.isSome = true) :
    writeField fatal item message g ≠ .error .nullStream := by
  unfold writeField
  cases hf : g.groupFileId_ with
  | none => simp [hf] at hsome
  | some f =>
    simp only
    split
    · cases fatal <;> simp [KERNEL_ERROR]
    · simp

theorem writeGroupFileHeader_no_nullStream (fatal : Bool) (g : GroupMonitorCore)
    (hsome : g.groupFileId_.isSome = true) :
    writeGroupFileHeader fatal g ≠ .error .nullStream := by
  intro h
  unfold writeGroupFileHeader at h
  split at h
  · simp at h
  · split at h
    · rename_i e he
      simp only [Except.error.injEq] at h
      subst h
      exact writeField_no_nullStream _ _ _ _ hsome he
    · rename_i a ha
      have hsa := (writeField_inv _ _ _ _ _ ha).2.1
      split at h
      · rename_i e he
        simp only [Except.error.injEq] at h
        subst h
        exact writeField_no_nullStream _ _ _ _ hsa he
      · rename_i b hb
        have hsb := (writeField_inv _ _ _ _ _ hb).2.1
        dsimp only at h
        split at h
        · rename_i e he
          simp only [Except.error.injEq] at h
          subst h
          exact writeField_no_nullStream _ _ _ _ hsb he
        · rename_i c hc
          have hsc := (writeField_inv _ _ _ _ _ hc).2.1
          split at h
          · rename_i e he
            simp only [Except.error.injEq] at h
            subst h
            exact writeField_no_nullStream _ _ _ _ hsc he
          · rename_i d hd
            have hsd := (writeField_inv _ _ _ _ _ hd).2.1
            split at h
            · rename_i e he
              simp only [Except.error.injEq] at h
              subst h
              exact writeField_no_nullStream _ _ _ _ hsd he
            · simp at h

theorem setGroupFileId_no_nullStream (fatal : Bool) (f : Option FILE) (g : GroupMonitorCore) :
    setGroupFileId fatal f g ≠ .error .nullStream := by
  intro h
  unfold setGroupFileId at h
  split at h
  · simp at h
  · split at h
    · rename_i e he
      simp only [Except.error.injEq] at h
      subst h
      split at he
      · cases fatal <;> simp [KERNEL_ERROR] at he
      · simp at he
    · rename_i g0 hg0
      cases f with
      | none => simp at h
      | some f1 =>
        simp only [Option.isNone_some, Bool.false_eq_true, if_false] at h
        exact writeGroupFileHeader_no_nullStream fatal
          { g0 with groupFileId_ := some f1, needToWriteFileHeader_ := true } rfl h

theorem run_no_nullStream (fatal : Bool) (op : Op) (g : GroupMonitorCore) :
    op.run fatal g ≠ .error .nullStream := by
  cases op with
  | clear =>
    simp only [Op.run, clear]
    split <;> simp
  | print =>
    simp only [Op.run, print]
    split <;> simp
  | pushData time data =>
    simp only [Op.run, pushData]
    split <;> simp
  | startRecording =>
    cases hr : g.recordSet_ <;> cases hp : g.persistentData_ <;>
      simp [Op.run, startRecording, clear, isRecording, hr, hp]
  | stopRecording =>
    simp only [Op.run, stopRecording]
    split_ifs <;> simp
  | setGroupFileId f => exact setGroupFileId_no_nullStream fatal f g
  | simulate snn => simp [Op.run]
  | setPersistentData b => simp [Op.run, setPersistentData]

theorem runOps_no_nullStream (fatal : Bool) (ops : List Op) (g : GroupMonitorCore) :
    runOps fatal ops g ≠ .error .nullStream := by
  induction ops generalizing g with
  | nil => simp [runOps]
  | cons op rest ih =>
    intro h
    simp only [runOps] at h
    split at h
    · rename_i e he
      simp only [Except.error.injEq] at h
      subst h
      exact run_no_nullStream fatal op g he
    · rename_i g0 _
      exact ih g0 h

/-- C15, as amended. In every state reached from a constructed recorder by
public calls, changes of the mode and engine steps: as long as
`setGroupFileId` has not been called, `needToWriteFileHeader_` is true, as the
constructor set it, and no stream is attached; once `setGroupFileId` has been
called, `needToWriteFileHeader_` is false; so an attached stream implies that
the flag is false. And no run of such calls, from any state, stops on a write
through a null stream: `writeGroupFileHeader()` is only reached with a stream
attached. -/
theorem header_pending_invariant (fatal : Bool) (mem : GroupMonitorCore) (snn : CpuSNN)
    (monitorId grpId : Int) (g0 g : GroupMonitorCore) (ops : List Op)
    (hc : GroupMonitorCore.GroupMonitorCore mem snn monitorId grpId = .ok g0)
    (hrun : runOps fatal ops g0 = .ok g) :
    (ops.any Op.isSetGroupFileId = false →
      g.needToWriteFileHeader_ = true ∧ g.groupFileId_ = none) ∧
    (ops.any Op.isSetGroupFileId = true → g.needToWriteFileHeader_ = false) ∧
    (g.groupFileId_.isSome = true → g.needToWriteFileHeader_ = false) ∧
    (∀ (more : List Op), runOps fatal more g ≠ .error .nullStream) := by
  obtain ⟨_, hnone, hflag, _⟩ := constructor_ok mem snn monitorId grpId g0 hc
  have key := runOps_header fatal ops g0 g false hrun (by simp [hnone, hflag])
  simp only [Bool.false_or] at key
  refine ⟨key.2, key.1, ?_, fun more => runOps_no_nullStream fatal more g⟩
  intro hsome
  cases hany : ops.any Op.isSetGroupFileId
  · rw [(key.2 hany).2] at hsome
    simp at hsome
  · exact key.1 hany

/-- Counterexample to C15 as stated: the recorder `fresh` is what the
constructor returns, its `needToWriteFileHeader_` is true and no stream is
attached to it; `writeGroupFileHeader()` in that state would write through the
null stream. -/
theorem header_pending_invariant_counterexample :
    GroupMonitorCore.GroupMonitorCore rawStorage (engineAt 0 0 5 ⟨5, 1, 1⟩) 0 0 = .ok fresh ∧
    fresh.needToWriteFileHeader_ = true ∧ fresh.groupFileId_ = none ∧
    writeGroupFileHeader true fresh = .error .nullStream :=
  ⟨rfl, rfl, rfl, rfl⟩

/-! ## Concrete runs -/

/-- Witness of C11: a start fails on `recordingOne` and succeeds on `fresh`, a
stop fails on `fresh`, the session from 100 to 200 on `usedTransient` goes
idle, recording, idle, and the start and stop calls of `exampleRun`
alternate. -/
theorem state_transitions_witness :
    startRecording recordingOne = .error (.assertion "!isRecording()") ∧
    (∃ g1, startRecording fresh = .ok g1 ∧ g1.recordSet_ = true) ∧
    stopRecording fresh = .error (.assertion "isRecording()") ∧
    (∃ g1 g2 g3, startRecording (atEngine session_100_200.start usedTransient) = .ok g1 ∧
      g1.recordSet_ = true ∧
      pushAll session_100_200.pushes g1 = .ok g2 ∧ g2.recordSet_ = true ∧
      stopRecording (atEngine session_100_200.stop g2) = .ok g3 ∧ g3.recordSet_ = false) ∧
    alternates false exampleRun = true :=
  ⟨state_transitions.1 recordingOne rfl,
   state_transitions.2.1 fresh rfl,
   state_transitions.2.2.1 fresh rfl,
   state_transitions.2.2.2.1 usedTransient session_100_200 rfl (by decide),
   state_transitions.2.2.2.2 true rawStorage (engineAt 0 0 5 ⟨5, 1, 1⟩) 0 0 fresh
     exampleRunEnd exampleRun rfl rfl⟩

/-- Witness of C15 as amended: at the end of `exampleRun`, in which `sinkA` was
attached, the flag is false and a stream is attached; after the run with no
`setGroupFileId` call the flag is still true and no stream is attached. -/
theorem header_pending_invariant_witness :
    (exampleRunEnd.groupFileId_.isSome = true ∧
      exampleRunEnd.needToWriteFileHeader_ = false) ∧
    (stoppedOne.needToWriteFileHeader_ = true ∧ stoppedOne.groupFileId_ = none) := by
  have h1 := header_pending_invariant true rawStorage (engineAt 0 0 5 ⟨5, 1, 1⟩) 0 0 fresh
    exampleRunEnd exampleRun rfl rfl
  have h2 := header_pending_invariant true rawStorage (engineAt 0 0 5 ⟨5, 1, 1⟩) 0 0 fresh
    stoppedOne
    [.simulate (engineAt 0 100 5 ⟨5, 1, 1⟩), .startRecording, .pushData 100 lit_0_5f,
      .stopRecording] rfl rfl
  exact ⟨⟨rfl, h1.2.1 rfl⟩, h2.1 rfl⟩

/-- Witness of C16: the recorder at the end of `exampleRun` is recording, its
latest start read t = 300, and a stop at t = 400 succeeds. -/
theorem stop_checks_hold_witness :
    0 ≤ exampleRunEnd.startTime_ ∧ 0 ≤ exampleRunEnd.startTimeLast_ ∧
    0 ≤ exampleRunEnd.accumTime_ ∧
    lastStartReading true exampleRun fresh none = some 300 ∧
    exampleRunEnd.startTimeLast_ = 300 ∧
    ∃ g1, stopRecording (atEngine (engineAt 0 400 5 ⟨5, 1, 1⟩) exampleRunEnd) = .ok g1 ∧
      0 ≤ g1.totalTime_ := by
  obtain ⟨h1, h2, h3, t, ht, hlast, hstop⟩ :=
    stop_checks_hold true rawStorage (engineAt 0 0 5 ⟨5, 1, 1⟩) 0 0 fresh
      exampleRunEnd exampleRun rfl rfl rfl
  have ht300 : t = 300 := by
    have : lastStartReading true exampleRun fresh none = some 300 := rfl
    rw [this] at ht
    exact (Option.some.inj ht).symm
  subst ht300
  obtain ⟨g1, hg1, _, _, hnn⟩ := hstop (engineAt 0 400 5 ⟨5, 1, 1⟩) (by decide)
  exact ⟨h1, h2, h3, ht, hlast, g1, hg1, hnn⟩

/-- Witness of C17: a persistent start on `freshPersistent` and the stop on
`recordingOne` keep the vectors, and the two persistent sessions with pushes
leave the three pushed pairs, in order. -/
theorem persistent_series_kept_witness :
    (∃ g1, startRecording freshPersistent = .ok g1 ∧
      g1.timeVector_ = freshPersistent.timeVector_ ∧
      g1.dataVector_ = freshPersistent.dataVector_ ∧
      series g1 = series freshPersistent) ∧
    (stoppedOne.timeVector_ = recordingOne.timeVector_ ∧
      stoppedOne.dataVector_ = recordingOne.dataVector_ ∧
      series stoppedOne = series recordingOne) ∧
    (∃ g1, runSessions [session_0_50_push, session_200_230_push] freshPersistent = .ok g1 ∧
      series g1 = [(10, lit_0_5f), (210, lit_0_7f), (220, lit_0_5f)]) := by
  refine ⟨persistent_series_kept.1 freshPersistent rfl rfl,
    persistent_series_kept.2.1 recordingOne stoppedOne rfl, ?_⟩
  obtain ⟨g1, hrun, _, _, hseries⟩ :=
    persistent_series_kept.2.2 freshPersistent [session_0_50_push, session_200_230_push]
      rfl rfl (by intro s hs; simp at hs; rcases hs with rfl | rfl <;> decide)
  exact ⟨g1, hrun, hseries rfl⟩

/-- Witness of C18: at the end of `exampleRun` the series is the two pushes of
the first session, kept by the persistent start, and the push after it. -/
theorem series_well_formed_witness :
    exampleRunEnd.timeVector_.length = exampleRunEnd.dataVector_.length ∧
    pushedSinceLastClear true exampleRun fresh [] =
      [(100, lit_0_5f), (150, lit_0_7f), (310, lit_0_5f)] ∧
    series exampleRunEnd = [(100, lit_0_5f), (150, lit_0_7f), (310, lit_0_5f)] := by
  obtain ⟨hlen, _, _, hseries, _⟩ :=
    series_well_formed true rawStorage (engineAt 0 0 5 ⟨5, 1, 1⟩) 0 0 fresh
      exampleRunEnd exampleRun rfl rfl
  exact ⟨hlen, rfl, hseries⟩

/-! ## Attaching a stream more than once -/

theorem writeField_errorLog (fatal : Bool) (item : Item) (message : String)
    (g g1 : GroupMonitorCore) (h : writeField fatal item message g = .ok g1) :
    ∃ more, g1.snn_.errorLog = g.snn_.errorLog ++ more := by
  unfold writeField at h
  cases hf : g.groupFileId_ with
  | none => simp [hf] at h
  | some f =>
    simp only [hf] at h
    split at h
    · cases fatal
      · simp [KERNEL_ERROR] at h
        subst h
        exact ⟨[message], rfl⟩
      · simp [KERNEL_ERROR] at h
    · simp at h
      subst h
      exact ⟨[], by simp⟩

theorem writeGroupFileHeader_errorLog (fatal : Bool) (g g1 : GroupMonitorCore)
    (h : writeGroupFileHeader fatal g = .ok g1) :
    ∃ more, g1.snn_.errorLog = g.snn_.errorLog ++ more := by
  unfold writeGroupFileHeader at h
  split at h
  · simp at h
    subst h
    exact ⟨[], by simp⟩
  · split at h
    · simp at h
    · rename_i a ha
      split at h
      · simp at h
      · rename_i b hb
        dsimp only at h
        split at h
        · simp at h
        · rename_i c hc
          split at h
          · simp at h
          · rename_i d hd
            split at h
            · simp at h
            · rename_i e he
              simp at h
              subst h
              obtain ⟨m1, h1⟩ := writeField_errorLog _ _ _ _ _ ha
              obtain ⟨m2, h2⟩ := writeField_errorLog _ _ _ _ _ hb
              obtain ⟨m3, h3⟩ := writeField_errorLog _ _ _ _ _ hc
              obtain ⟨m4, h4⟩ := writeField_errorLog _ _ _ _ _ hd
              obtain ⟨m5, h5⟩ := writeField_errorLog _ _ _ _ _ he
              refine ⟨m1 ++ m2 ++ m3 ++ m4 ++ m5, ?_⟩
              simp only [h5, h4, h3, h2, h1, List.append_assoc]

theorem setGroupFileId_attached (fatal : Bool) (f2 : Option FILE) (g : GroupMonitorCore)
    (hsome : g.groupFileId_.isSome = true) :
    (g.recordSet_ = true →
      setGroupFileId fatal f2 g = .error (.assertion "!isRecording()")) ∧
    (g.recordSet_ = false → fatal = true →
      setGroupFileId fatal f2 g =
        .error (.kernelError "GroupMonitorCore: setGroupFileId() has already been called.")) ∧
    (∀ g1, setGroupFileId fatal f2 g = .ok g1 →
      fatal = false ∧ g.recordSet_ = false ∧
      ∃ more, g1.snn_.errorLog = g.snn_.errorLog ++
        ["GroupMonitorCore: setGroupFileId() has already been called."] ++ more) := by
  refine ⟨?_, ?_, ?_⟩
  · intro hrec
    simp [setGroupFileId, isRecording, hrec]
  · intro hidle hfatal
    simp [setGroupFileId, isRecording, hidle, hsome, hfatal, KERNEL_ERROR]
  · intro g1 h
    cases hrec : g.recordSet_
    · cases fatal
      · refine ⟨rfl, rfl, ?_⟩
        simp only [setGroupFileId, isRecording, hrec, Bool.false_eq_true, if_false, hsome,
          if_true, KERNEL_ERROR] at h
        cases f2 with
        | none =>
          simp at h
          subst h
          exact ⟨[], by simp⟩
        | some f =>
          simp only [Option.isNone_some, Bool.false_eq_true, if_false] at h
          obtain ⟨more, hm⟩ := writeGroupFileHeader_errorLog _ _ _ h
          exact ⟨more, by rw [hm]⟩
      · simp [setGroupFileId, isRecording, hrec, hsome, KERNEL_ERROR] at h
    · simp [setGroupFileId, isRecording, hrec] at h

theorem runOps_sink_kept (fatal : Bool) (ops : List Op) (g g1 : GroupMonitorCore)
    (hops : ∀ op ∈ ops, op.isSetGroupFileId = false) (hrun : runOps fatal ops g = .ok g1) :
    g1.groupFileId_ = g.groupFileId_ := by
  induction ops generalizing g with
  | nil =>
    simp only [runOps, Except.ok.injEq] at hrun
    subst hrun
    rfl
  | cons op rest ih =>
    obtain ⟨g0, h0, hrest⟩ := runOps_cons fatal op rest g g1 hrun
    rw [ih g0 (fun o ho => hops o (by simp [ho])) hrest]
    exact (run_sink fatal op g g0 (hops op (by simp)) h0).1

theorem runOps_fatal_kept (ops : List Op) (g g1 : GroupMonitorCore)
    (hsome : g.groupFileId_.isSome = true) (hrun : runOps true ops g = .ok g1) :
    g1.groupFileId_ = g.groupFileId_ ∧ ops.any Op.isSetGroupFileId = false := by
  induction ops generalizing g with
  | nil =>
    simp only [runOps, Except.ok.injEq] at hrun
    subst hrun
    exact ⟨rfl, rfl⟩
  | cons op rest ih =>
    obtain ⟨g0, h0, hrest⟩ := runOps_cons true op rest g g1 hrun
    cases hop : op.isSetGroupFileId
    · obtain ⟨hs, _⟩ := run_sink true op g g0 hop h0
      obtain ⟨h1, h2⟩ := ih g0 (by rw [hs]; exact hsome) hrest
      exact ⟨by rw [h1, hs], by simp [List.any_cons, hop, h2]⟩
    · cases op with
      | setGroupFileId f =>
        have h := ((setGroupFileId_attached true f g hsome).2.2 g0 h0).1
        simp at h
      | clear => simp [Op.isSetGroupFileId] at hop
      | print => simp [Op.isSetGroupFileId] at hop
      | pushData t d => simp [Op.isSetGroupFileId] at hop
      | startRecording => simp [Op.isSetGroupFileId] at hop
      | stopRecording => simp [Op.isSetGroupFileId] at hop
      | simulate snn => simp [Op.isSetGroupFileId] at hop
      | setPersistentData b => simp [Op.isSetGroupFileId] at hop

/-- C6, as amended. A stream counts as attached when `groupFileId_` is not
null. In every state with a stream attached, a `setGroupFileId` call, with any
argument, never succeeds silently: on a recording recorder it stops on the
assertion; on an idle one it stops on the error statement if that is fatal;
and if it returns at all, the error statement is not fatal and the message
"setGroupFileId() has already been called" has been added to the error log.
After a call that attached a stream, the stream stays attached, the same and
with the same content, through every run of other public calls, changes of the
mode and engine steps. With a fatal error statement, no run after the attach
contains a successful `setGroupFileId` call, the stream is the same at its end,
and every further `setGroupFileId` call fails. -/
theorem setGroupFileId_twice (fatal : Bool) :
    (∀ (g : GroupMonitorCore) (f2 : Option FILE), g.groupFileId_.isSome = true →
      (g.recordSet_ = true →
        setGroupFileId fatal f2 g = .error (.assertion "!isRecording()")) ∧
      (g.recordSet_ = false → fatal = true →
        setGroupFileId fatal f2 g = .error
          (.kernelError "GroupMonitorCore: setGroupFileId() has already been called.")) ∧
      (∀ g1, setGroupFileId fatal f2 g = .ok g1 →
        fatal = false ∧ g.recordSet_ = false ∧
        ∃ more, g1.snn_.errorLog = g.snn_.errorLog ++
          ["GroupMonitorCore: setGroupFileId() has already been called."] ++ more)) ∧
    (∀ (g gA g1 : GroupMonitorCore) (f1 : FILE) (ops : List Op),
      setGroupFileId fatal (some f1) g = .ok gA →
      (∀ op ∈ ops, op.isSetGroupFileId = false) → runOps fatal ops gA = .ok g1 →
      gA.groupFileId_.isSome = true ∧ g1.groupFileId_ = gA.groupFileId_) ∧
    (fatal = true →
      ∀ (g gA g1 : GroupMonitorCore) (f1 : FILE) (ops : List Op),
      setGroupFileId fatal (some f1) g = .ok gA → runOps fatal ops gA = .ok g1 →
      ops.any Op.isSetGroupFileId = false ∧ g1.groupFileId_ = gA.groupFileId_ ∧
      ∀ f2 : Option FILE, ∃ e, setGroupFileId fatal f2 g1 = .error e) := by
  refine ⟨fun g f2 hsome => setGroupFileId_attached fatal f2 g hsome, ?_, ?_⟩
  · intro g gA g1 f1 ops hattach hops hrun
    exact ⟨(setGroupFileId_inv fatal f1 g gA hattach).2.1,
      runOps_sink_kept fatal ops gA g1 hops hrun⟩
  · intro hfatal g gA g1 f1 ops hattach hrun
    subst hfatal
    have hsomeA := (setGroupFileId_inv true f1 g gA hattach).2.1
    obtain ⟨hkept, hnone⟩ := runOps_fatal_kept ops gA g1 hsomeA hrun
    refine ⟨hnone, hkept, ?_⟩
    intro f2
    have hsome1 : g1.groupFileId_.isSome = true := by rw [hkept]; exact hsomeA
    obtain ⟨hrec, hidle, _⟩ := setGroupFileId_attached true f2 g1 hsome1
    cases h : g1.recordSet_
    · exact ⟨_, hidle h rfl⟩
    · exact ⟨_, hrec h⟩

/-- Witness of C6 as amended: `sinkA` is attached to `fresh`; attaching `sinkB`
then fails with a fatal error statement, and with one that only prints it
returns with the message logged; after the session and the `clear()` of
`runWithoutAttach` the stream is still the same, and every further call
fails. -/
theorem setGroupFileId_twice_witness :
    setGroupFileId true (some sinkA) fresh = .ok attachedA ∧
    setGroupFileId true (some sinkB) attachedA = .error
      (.kernelError "GroupMonitorCore: setGroupFileId() has already been called.") ∧
    (∃ more, replacedB.snn_.errorLog = attachedA.snn_.errorLog ++
      ["GroupMonitorCore: setGroupFileId() has already been called."] ++ more) ∧
    attachedAEnd.groupFileId_ = attachedA.groupFileId_ ∧
    (∀ f2 : Option FILE, ∃ e, setGroupFileId true f2 attachedAEnd = .error e) :=
  ⟨rfl,
   ((setGroupFileId_twice true).1 attachedA (some sinkB) rfl).2.1 rfl rfl,
   (((setGroupFileId_twice false).1 attachedA (some sinkB) rfl).2.2 replacedB rfl).2.2,
   ((setGroupFileId_twice true).2.1 fresh attachedA attachedAEnd sinkA runWithoutAttach rfl
     (by decide) rfl).2,
   ((setGroupFileId_twice true).2.2 rfl fresh attachedA attachedAEnd sinkA runWithoutAttach
     rfl rfl).2.2⟩

/-- Counterexample to C6 as stated: on the recorder `fresh`, both idle calls
`setGroupFileId(NULL)` and then `setGroupFileId(sinkB)` succeed, and the second
one attaches `sinkB` and writes the header to it, whether the error statement
is fatal or only prints. -/
theorem setGroupFileId_twice_counterexample :
    (∃ g1 g2, setGroupFileId true none fresh = .ok g1 ∧
      setGroupFileId true (some sinkB) g1 = .ok g2 ∧
      g1.recordSet_ = false ∧
      g2.groupFileId_ = some
        { fd := 4, room := 95,
          written := [.int 206661989, .float lit_0_2f, .int 5, .int 1, .int 1] }) ∧
    (∃ g1 g2, setGroupFileId false none fresh = .ok g1 ∧
      setGroupFileId false (some sinkB) g1 = .ok g2 ∧
      g1.recordSet_ = false ∧
      g2.groupFileId_ = some
        { fd := 4, room := 95,
          written := [.int 206661989, .float lit_0_2f, .int 5, .int 1, .int 1] }) :=
  ⟨⟨_, _, rfl, rfl, rfl, rfl⟩, ⟨_, _, rfl, rfl, rfl, rfl⟩⟩

end CARLsim
